import Mathlib

/-!
# banano-nft-doctor: the asset block validator, the runner and the suite

A shallow embedding of `src/diagnose.js` and of the POST handler of
`src/server.js`.

* `JVal` is the set of values the program handles: what `response.json()` can
  produce, plus `undefined`, which JavaScript yields for an absent property.
* A JavaScript fault (a thrown `Error`) is a `Fault`; code that may throw
  returns `Except Fault _`.
* `validateAssetBlock` is the function of lines 3-88, `test` the runner of
  lines 90-118, with the report and the progress sink passed as explicit state.
* `diagnose` is the suite of lines 120-686: the network and the URL parser are
  a `World`, each case is a function `case01` ... `case19`, and a run ends as a
  `Run`: it returns, it throws, or the process is ended by an unhandled
  rejection.
-/

namespace NftDoctor

/-! ## Values -/

/-- JavaScript values reachable from a parsed JSON response. Numbers carry an
integer payload: the program applies only `typeof` to an observed number. -/
inductive JVal where
  | undefined : JVal
  | null : JVal
  | bool (b : Bool) : JVal
  | num (n : Int) : JVal
  | str (s : String) : JVal
  | arr (items : List JVal) : JVal
  | obj (props : List (String × JVal)) : JVal

namespace JVal

/-- The test `v !== undefined` is `!v.isUndefined`. -/
def isUndefined : JVal → Bool
  | .undefined => true
  | _ => false

/-- The operator `typeof v`. -/
def typeOf : JVal → String
  | .undefined => "undefined"
  | .null => "object"
  | .bool _ => "boolean"
  | .num _ => "number"
  | .str _ => "string"
  | .arr _ => "object"
  | .obj _ => "object"

/-- Strict equality `a === b` on primitive values; values of different types
are never strictly equal. The program compares a field only with a string. -/
def strictEq : JVal → JVal → Bool
  | .undefined, .undefined => true
  | .null, .null => true
  | .bool a, .bool b => a == b
  | .num a, .num b => a == b
  | .str a, .str b => a == b
  | _, _ => false

/-- The loose comparison `v == b` against a boolean `b`, on a boolean `v`: the
program reaches it (line 69) only after line 67 has found
`typeof v === 'boolean'`, and on two booleans `==` is equality. On any other
`v` the model answers `false`; that answer is never used. -/
def looseEqBoolean : JVal → Bool → Bool
  | .bool a, b => a == b
  | _, _ => false

mutual
/-- Text of `v` inside a template literal (the abstract operation `ToString`).
An integer payload prints in decimal. -/
def toStr : JVal → String
  | .undefined => "undefined"
  | .null => "null"
  | .bool true => "true"
  | .bool false => "false"
  | .num n => toString n
  | .str s => s
  | .arr items => joinStr items
  | .obj _ => "[object Object]"
/-- The method `Array.prototype.join` with the default separator: `undefined`
and `null` elements print as the empty string. -/
def joinStr : List JVal → String
  | [] => ""
  | [.undefined] => ""
  | [.null] => ""
  | [x] => toStr x
  | .undefined :: rest => "," ++ joinStr rest
  | .null :: rest => "," ++ joinStr rest
  | x :: rest => toStr x ++ "," ++ joinStr rest
end

end JVal

/-- A thrown `Error` object: its `name` and `message`. -/
structure Fault where
  name : String
  message : String
  deriving DecidableEq, Repr

/-- The method `Error.prototype.toString`. -/
def Fault.toStr (e : Fault) : String :=
  if e.name = "" then e.message
  else if e.message = "" then e.name
  else e.name ++ ": " ++ e.message

/-- The `TypeError` raised by a property read on `undefined` or `null`. The
wording of the message is the engine's (V8 here). -/
def propertyTypeError (base : JVal) (key : String) : Fault :=
  { name := "TypeError",
    message := "Cannot read properties of " ++ base.toStr ++ " (reading '" ++ key ++ "')" }

/-- First binding of `key` among the own properties of an object. -/
def lookupProp (key : String) : List (String × JVal) → JVal
  | [] => .undefined
  | (k, v) :: rest => if k = key then v else lookupProp key rest

/-- Value of `base[key]` on a `base` that is neither `undefined` nor `null`,
for the literal names the program reads from a response (`error`,
`block_hash`, `account`, `owner`, `locked`, `asset_chain`), none of which is a built-in of a
primitive wrapper, of `Array` or of `Object`: an own property of an object, and
`undefined` on every other value. -/
def JVal.field (base : JVal) (key : String) : JVal :=
  match base with
  | .obj props => lookupProp key props
  | _ => .undefined

/-- The property read `base[key]`: a `TypeError` on `undefined` and `null`. -/
def getProp (base : JVal) (key : String) : Except Fault JVal :=
  match base with
  | .undefined => .error (propertyTypeError base key)
  | .null => .error (propertyTypeError base key)
  | _ => .ok (base.field key)

/-! ## Validation errors -/

/-- One entry of an error list. The entries built for a caught fault carry only
`type` and `message`, so `mint_block_hash` and `field` are optional; the
message of an `rpc error` is whatever value the response held under `error`. -/
structure ValidationError where
  type : String
  mint_block_hash : Option String
  field : Option String
  message : JVal

/-- The object literal `{type: 'exception', message: error.toString()}`. -/
def exceptionError (e : Fault) : ValidationError :=
  { type := "exception", mint_block_hash := none, field := none, message := .str e.toStr }

/-- The object literal pushed for a failed field check. -/
def incorrectData (mintBlockHash field message : String) : ValidationError :=
  { type := "incorrect data", mint_block_hash := some mintBlockHash,
    field := some field, message := .str message }

/-- The guarded `errors.push(...)`: push when the message is not `undefined`. -/
def pushIfSome (errors : List ValidationError) (mintBlockHash field : String)
    (message : Option String) : List ValidationError :=
  match message with
  | some m => errors ++ [incorrectData mintBlockHash field m]
  | none => errors

/-- Message computed for one of the three string fields (lines 14-19, 31-36,
48-53). -/
def stringFieldMessage (field : String) (value : JVal) (expected : String) : Option String :=
  if value.typeOf ≠ "string" then
    some ("expected typeof " ++ field ++ " to be 'string', got: '" ++ value.typeOf ++ "'")
  else if !(value.strictEq (.str expected)) then
    some ("expected " ++ field ++ " '" ++ expected ++ "', got: '" ++ value.toStr ++ "'")
  else none

/-- Message computed for `locked` (lines 66-75); the inner `typeof` test of
line 71 is kept as written. -/
def lockedMessage (value : JVal) (expectedLocked : Bool) : Option String :=
  if value.typeOf ≠ "boolean" then
    some ("expected typeof locked to be 'boolean', got: '" ++ value.typeOf ++ "'")
  else if !(value.looseEqBoolean expectedLocked) then
    let actual := if value.typeOf ≠ "boolean" then "'" ++ value.toStr ++ "'" else value.toStr
    some ("expected locked to be " ++ (JVal.bool expectedLocked).toStr ++ ", got: " ++ actual)
  else none

/-- The function `validateAssetBlock` of `src/diagnose.js`, lines 3-88. The
expected state is typed as at every call site: three strings and a boolean. -/
def validateAssetBlock (assetBlock : JVal) (mintBlockHash expectedBlockHash expectedAccount
    expectedOwner : String) (expectedLocked : Bool) : Except Fault (List ValidationError) := do
  let error ← getProp assetBlock "error"
  if !error.isUndefined then
    return [{ type := "rpc error", mint_block_hash := some mintBlockHash,
              field := some "", message := error }]
  let errors : List ValidationError := []
  let blockHash ← getProp assetBlock "block_hash"
  let errors := pushIfSome errors mintBlockHash "block_hash"
    (stringFieldMessage "block_hash" blockHash expectedBlockHash)
  let account ← getProp assetBlock "account"
  let errors := pushIfSome errors mintBlockHash "account"
    (stringFieldMessage "account" account expectedAccount)
  let owner ← getProp assetBlock "owner"
  let errors := pushIfSome errors mintBlockHash "owner"
    (stringFieldMessage "owner" owner expectedOwner)
  let locked ← getProp assetBlock "locked"
  let errors := pushIfSome errors mintBlockHash "locked" (lockedMessage locked expectedLocked)
  return errors

/-- Errors of a list that name the field `f`. -/
def errorsFor (f : String) (errs : List ValidationError) : List ValidationError :=
  errs.filter (fun e => e.field == some f)

/-- A string field fails its check: the value is not a string or differs from
the expected one. -/
def StringFieldFails (value : JVal) (expected : String) : Prop :=
  value.typeOf ≠ "string" ∨ value ≠ .str expected

/-- The field `locked` fails its check: the value is not a boolean or differs
from the expected one. -/
def LockedFails (value : JVal) (expectedLocked : Bool) : Prop :=
  value.typeOf ≠ "boolean" ∨ value ≠ .bool expectedLocked

/-- The four field names, in the order of the checks. -/
def fieldOrder : List (Option String) :=
  [some "block_hash", some "account", some "owner", some "locked"]

/-- The block of the two worked examples of the specification. -/
def exampleBlock (blockHash account owner : String) (locked : JVal) : JVal :=
  .obj [("block_hash", .str blockHash), ("account", .str account), ("owner", .str owner),
    ("locked", locked)]

/-! ## The runner -/

/-- The object stored in `report[name]`: `{ success: true }` has no `errors`
property, `{ success: false, errors: errors }` has one. -/
structure Outcome where
  success : Bool
  errors : Option (List ValidationError)

/-- The report object: its properties, in insertion order. -/
abbrev Report := List (String × Outcome)

/-- The assignment `report[name] = outcome`: an existing property keeps its
place and gets the new value, a new property is appended. (JavaScript lists
names that are canonical array indices first; no case name is one, and the
statements below only read `report[name]` back.) -/
def setEntry : Report → String → Outcome → Report
  | [], name, outcome => [(name, outcome)]
  | (k, v) :: rest, name, outcome =>
    if k = name then (k, outcome) :: rest else (k, v) :: setEntry rest name outcome

/-- The read `report[name]`; `none` is `undefined`. -/
def getEntry : Report → String → Option Outcome
  | [], _ => none
  | (k, v) :: rest, name => if k = name then some v else getEntry rest name

/-- The chunks written to the response stream, oldest first. -/
abbrev Sink := List String

/-- The call `res.write(chunk)`. -/
def Sink.write (res : Sink) (chunk : String) : Sink := res ++ [chunk]

/-- The guarded writes `if (res) { res.write(line); res.write('<br>'); }`; an
absent sink (`undefined`) is `none`. -/
def writeStatus (res : Option Sink) (line : String) : Option Sink :=
  match res with
  | some w => some ((w.write line).write "<br>")
  | none => none

/-- The function `test` of `src/diagnose.js`, lines 90-118. The awaited call
`fn()` either returns an error list or throws; the report and the sink are
threaded through. The writes to the report and to the stream do not fault, so
the `catch` block is entered exactly when `fn` throws. -/
def test (name : String) (report : Report) (res : Option Sink)
    (fn : Unit → Except Fault (List ValidationError)) : Report × Option Sink :=
  let errors : List ValidationError := []
  match fn () with
  | .ok fnErrors =>
    let errors := errors ++ fnErrors
    let report :=
      if errors.length = 0 then setEntry report name { success := true, errors := none }
      else setEntry report name { success := false, errors := some errors }
    let res := writeStatus res ("success: " ++ name)
    (report, res)
  | .error error =>
    let res := writeStatus res ("err: " ++ name)
    let errors := errors ++ [exceptionError error]
    (setEntry report name { success := false, errors := some errors }, res)

/-! ## The remote API and the case catalog -/

/-- A request URL built by a case: the base address given to `diagnose`, the
path name and the search parameters set on it. -/
structure Request where
  base : String
  pathname : String
  issuer : String
  mint_block_hash : String
  height : Option Nat
  deriving DecidableEq, Repr

/-- The value `fetch` resolves to, seen through the one method the program
calls on it: the outcome of `response.json()`, a parsed value or a fault. -/
abbrev Response := Except Fault JVal

/-- Everything `diagnose` takes from its platform and from the network. -/
structure World where
  /-- Whether `new URL(s)` accepts `s`. -/
  parsesAsUrl : String → Bool
  /-- Outcome of `await fetch(url)`: a response, or a transport fault. -/
  fetch : Request → Except Fault Response
  /-- When the promise of `fetch(url)` settles, among fetches started together:
  the promise of a smaller rank settles first. -/
  settleRank : Request → Nat
  /-- Value of `c[c.length - 1]` for a string or a plain object `c`. It rests on
  UTF-16 indexing and on the number conversion of an arbitrary `length`
  property, which are not modelled. -/
  lastEntry : JVal → JVal

/-- The `TypeError` of `new URL(s)` on a string that is not a URL. -/
def invalidUrlFault : Fault := { name := "TypeError", message := "Invalid URL" }

/-- The two awaits `const response = await fetch(url); await response.json()`. -/
def fetchJson (w : World) (request : Request) : Except Fault JVal := do
  let response ← w.fetch request
  response

/-- The body shared by the cases that issue one request: fetch, parse and
validate inside `try`, and `return [{type: 'exception', ...}]` in `catch`. -/
def frontierCase (w : World) (request : Request) (mintBlockHash expectedBlockHash
    expectedAccount expectedOwner : String) (expectedLocked : Bool) : List ValidationError :=
  match (do
    let assetBlock ← fetchJson w request
    validateAssetBlock assetBlock mintBlockHash expectedBlockHash expectedAccount
      expectedOwner expectedLocked) with
  | .ok errors => errors
  | .error error => [exceptionError error]

/-- Number of UTF-16 code units of a string, its JavaScript `length`. -/
def utf16Length (s : String) : Nat :=
  s.data.foldl (fun n c => n + (if c.toNat < 65536 then 1 else 2)) 0

/-- The property read `c.length`: a `TypeError` on `undefined` and `null`, the
number of elements of an array, the number of code units of a string, the own
property `length` of a plain object, `undefined` on a number or boolean. -/
def getLength (c : JVal) : Except Fault JVal :=
  match c with
  | .undefined => .error (propertyTypeError c "length")
  | .null => .error (propertyTypeError c "length")
  | .arr items => .ok (.num items.length)
  | .str s => .ok (.num (utf16Length s))
  | .obj props => .ok (lookupProp "length" props)
  | _ => .ok .undefined

/-- The element read `c[c.length - 1]` on a `c` whose `length` was read without
fault: the last element of an array (`undefined` for the empty array, whose
index is `-1`), `undefined` on a number or boolean (the index is `NaN`). -/
def lastOf (w : World) (c : JVal) : JVal :=
  match c with
  | .arr items => items.getLast?.getD .undefined
  | .str _ => w.lastEntry c
  | .obj _ => w.lastEntry c
  | _ => .undefined

/-- The constant `requestAssetChainMintBlockHash` of line 126. -/
def requestAssetChainMintBlockHash : String :=
  "439F5CB566E957576C2473B7AF6F3D7D17FBF5022685EB70ED825EAC3B84A56A"

/-- The URL `requestHistoryUrl` of the setup, lines 127-130. -/
def requestHistoryUrl (base : String) : Request :=
  { base := base, pathname := "get_asset_chain",
    issuer := "ban_1swapxh34bjstbc8c5tonbncw5nrc6sgk7h71bxtetty3huiqcj6mja9rxjt",
    mint_block_hash := requestAssetChainMintBlockHash,
    height := none }

/-- Request of the case of lines 145-169. -/
def case01Request (base : String) : Request :=
  { base := base, pathname := "get_asset_frontier",
    issuer := "ban_1ty5s13h9tg9f57gwsto8njkzejfu9tjasc8a9mn1wujfxib8dj7w54jg3qm",
    mint_block_hash := "F61CCF94D6E5CFE9601C436ACC3976AF876D1DA21909FEB88B629BEDEC4DF1EA",
    height := none }

/-- The case of lines 145-169. It declares no `errors` of its own: the array it
pushes to and returns is the one of `diagnose` (line 122), which already holds
the entry of a failed setup fetch. -/
def case01 (w : World) (base : String) (errors : List ValidationError) :
    List ValidationError :=
  match (do
    let frontier ← fetchJson w (case01Request base)
    validateAssetBlock frontier "F61CCF94D6E5CFE9601C436ACC3976AF876D1DA21909FEB88B629BEDEC4DF1EA"
      "201D206790E46B4CB24CA9F0DB370F8F4BA2E905D66E8DE825D36A9D0E775DAB"
      "ban_1twos81eoq9s6d1asht5wwz53m9kw7hkuajad1m4u5otgcsb4qstymquhahf"
      "ban_1twos81eoq9s6d1asht5wwz53m9kw7hkuajad1m4u5otgcsb4qstymquhahf" false) with
  | .ok validationErrors => errors ++ validationErrors
  | .error error => errors ++ [exceptionError error]

/-- Request of the case of lines 171-196. -/
def case02Request (base : String) : Request :=
  { base := base, pathname := "get_asset_frontier",
    issuer := "ban_1ty5s13h9tg9f57gwsto8njkzejfu9tjasc8a9mn1wujfxib8dj7w54jg3qm",
    mint_block_hash := "EFE6CCFDE4FD56E60F302F22DCF41E736F611124E3F463135FDC31769A68B970",
    height := none }

/-- The case of lines 171-196. -/
def case02 (w : World) (base : String) : List ValidationError :=
  frontierCase w (case02Request base) "EFE6CCFDE4FD56E60F302F22DCF41E736F611124E3F463135FDC31769A68B970"
    "F00B3B6F2F7CD59B7383F3950CF554B22379F79D3AB607D74FDFA91EC55ED0C0"
    "ban_1twos81eoq9s6d1asht5wwz53m9kw7hkuajad1m4u5otgcsb4qstymquhahf"
    "ban_1twos81eoq9s6d1asht5wwz53m9kw7hkuajad1m4u5otgcsb4qstymquhahf" false

/-- First request of the case of lines 198-279 (mint 1). -/
def case03Request1 (base : String) : Request :=
  { base := base, pathname := "get_asset_frontier",
    issuer := "ban_1sweep4n54fbbrzaj1cnr7drf4udbf6f66un3zikhwm6f497pk5ftar3tekj",
    mint_block_hash := "698625D8B57D695D45D4597EF5EEBC7DC31B9A706CCA1D26EAA72F8063B6E385",
    height := none }

/-- Second request of the case of lines 198-279 (mint 2): a copy of the first
with another `mint_block_hash`. -/
def case03Request2 (base : String) : Request :=
  { case03Request1 base with
    mint_block_hash := "56A2251E0C20CE9B81269E1916858FB2FE178543FA2ED05522D66FC74EC6DD8D" }

/-- Third request of the case of lines 198-279 (mint 3). -/
def case03Request3 (base : String) : Request :=
  { case03Request1 base with
    mint_block_hash := "A8748C3ABC82C1FC18CD2E9A2AB1AA13E5FCC88F71B1BEBF0C44BE7A520AD393" }

/-- Fourth request of the case of lines 198-279 (mint 5). -/
def case03Request5 (base : String) : Request :=
  { case03Request1 base with
    mint_block_hash := "95C9F6EE6038C3DBD7450EC3435203FF3C623EEA8673B7E41077D3DBE875325C" }

/-- Validation of the first response of the case of lines 198-279 (line 262). -/
def case03Validate1 (assetBlock : JVal) : Except Fault (List ValidationError) :=
  validateAssetBlock assetBlock
    "698625D8B57D695D45D4597EF5EEBC7DC31B9A706CCA1D26EAA72F8063B6E385"
    "024ACA494596E054C94E86A11C881018F6A0D73B108D1A0D15A66F91ADCEC1D8"
    "ban_3cantszxkej3kzcjjpxcu35jcn6ck884uu3q8ypd3xc1e1y61tt6jj7p99yd"
    "ban_3testz6spgm48ax8kcwah6swo59sroqfn94fqsgq368z7ki44ccg8hhrx3x8" true

/-- Validation of the second response (line 263). -/
def case03Validate2 (assetBlock : JVal) : Except Fault (List ValidationError) :=
  validateAssetBlock assetBlock
    "56A2251E0C20CE9B81269E1916858FB2FE178543FA2ED05522D66FC74EC6DD8D"
    "D29F111B51E113F58A1805379CB880564402B6DC430B59DE4598E5A5ED36AF3A"
    "ban_1sweep4n54fbbrzaj1cnr7drf4udbf6f66un3zikhwm6f497pk5ftar3tekj"
    "ban_1sweep4n54fbbrzaj1cnr7drf4udbf6f66un3zikhwm6f497pk5ftar3tekj" false

/-- Validation of the third response (line 264). -/
def case03Validate3 (assetBlock : JVal) : Except Fault (List ValidationError) :=
  validateAssetBlock assetBlock
    "A8748C3ABC82C1FC18CD2E9A2AB1AA13E5FCC88F71B1BEBF0C44BE7A520AD393"
    "024ACA494596E054C94E86A11C881018F6A0D73B108D1A0D15A66F91ADCEC1D8"
    "ban_3cantszxkej3kzcjjpxcu35jcn6ck884uu3q8ypd3xc1e1y61tt6jj7p99yd"
    "ban_3testz6spgm48ax8kcwah6swo59sroqfn94fqsgq368z7ki44ccg8hhrx3x8" true

/-- Validation of the fourth response (line 265); the expected block hash is
the mint block hash. -/
def case03Validate5 (assetBlock : JVal) : Except Fault (List ValidationError) :=
  validateAssetBlock assetBlock
    "95C9F6EE6038C3DBD7450EC3435203FF3C623EEA8673B7E41077D3DBE875325C"
    "95C9F6EE6038C3DBD7450EC3435203FF3C623EEA8673B7E41077D3DBE875325C"
    "ban_1sweep4n54fbbrzaj1cnr7drf4udbf6f66un3zikhwm6f497pk5ftar3tekj"
    "ban_1sweep4n54fbbrzaj1cnr7drf4udbf6f66un3zikhwm6f497pk5ftar3tekj" false

/-- Whether a promise is rejected. -/
def rejected (promise : Except Fault Response) : Bool :=
  match promise with
  | .error _ => true
  | .ok _ => false

/-- Whether one of the promises, started together and awaited in turn, is
rejected while no handler is attached to it, which ends the Node process
(the default treatment of an unhandled rejection). `reached` is the rank at
which the `await` of the first promise of the list is reached. A fulfilled
promise moves on to the next `await`. A rejected promise had no handler when
it settled before its `await` was reached; otherwise its `await` throws, the
`catch` block returns and the promises after it are never awaited, so each of
those that is rejected has no handler either. (The model takes the rejection
of a promise that is never awaited to arrive before the suite ends.) -/
def unhandledRejection : Nat → List (Except Fault Response × Nat) → Bool
  | _, [] => false
  | reached, (.ok _, rank) :: rest => unhandledRejection (max reached rank) rest
  | reached, (.error _, rank) :: rest =>
    decide (rank < reached) || rest.any (fun p => rejected p.1)

/-- The `try` and `catch` blocks of the case of lines 198-279, for the four
promises the fetches gave: the responses are awaited in turn (lines 252-255),
the four bodies are parsed in turn, each awaited as it is started (lines
257-260), and the four blocks are validated (lines 262-272); a fault anywhere
is caught (lines 273-278). -/
def case03Try (responsePromise1 responsePromise2 responsePromise3
    responsePromise5 : Except Fault Response) : List ValidationError :=
  match (do
    let response1 ← responsePromise1
    let response2 ← responsePromise2
    let response3 ← responsePromise3
    let response5 ← responsePromise5
    let assetBlock1 ← response1
    let assetBlock2 ← response2
    let assetBlock3 ← response3
    let assetBlock5 ← response5
    let errors1 ← case03Validate1 assetBlock1
    let errors2 ← case03Validate2 assetBlock2
    let errors3 ← case03Validate3 assetBlock3
    let errors5 ← case03Validate5 assetBlock5
    pure (errors1 ++ errors2 ++ errors3 ++ errors5)) with
  | .ok errors => errors
  | .error error => [exceptionError error]

/-- The promises of the four fetches of the case of lines 198-279, started
together (lines 247-250), each with the rank at which it settles. -/
def case03Promises (w : World) (base : String) : List (Except Fault Response × Nat) :=
  [(w.fetch (case03Request1 base), w.settleRank (case03Request1 base)),
   (w.fetch (case03Request2 base), w.settleRank (case03Request2 base)),
   (w.fetch (case03Request3 base), w.settleRank (case03Request3 base)),
   (w.fetch (case03Request5 base), w.settleRank (case03Request5 base))]

/-- The case of lines 198-279: `none` when the process is ended by an
unhandled rejection of one of the four fetch promises, and otherwise the list
the case returns. -/
def case03 (w : World) (base : String) : Option (List ValidationError) :=
  if unhandledRejection 0 (case03Promises w base) then
    none
  else
    some (case03Try (w.fetch (case03Request1 base)) (w.fetch (case03Request2 base))
      (w.fetch (case03Request3 base)) (w.fetch (case03Request5 base)))

/-- Request of the case of lines 281-305. -/
def case04Request (base : String) : Request :=
  { base := base, pathname := "get_asset_frontier",
    issuer := "ban_1sweep4n54fbbrzaj1cnr7drf4udbf6f66un3zikhwm6f497pk5ftar3tekj",
    mint_block_hash := "9DBA255E5D311A5D519CF3B3D182E7120D8A94BCF450FFFB7C44FF9569B41CCF",
    height := none }

/-- The case of lines 281-305. -/
def case04 (w : World) (base : String) : List ValidationError :=
  frontierCase w (case04Request base) "9DBA255E5D311A5D519CF3B3D182E7120D8A94BCF450FFFB7C44FF9569B41CCF"
    "024ACA494596E054C94E86A11C881018F6A0D73B108D1A0D15A66F91ADCEC1D8"
    "ban_3cantszxkej3kzcjjpxcu35jcn6ck884uu3q8ypd3xc1e1y61tt6jj7p99yd"
    "ban_3testz6spgm48ax8kcwah6swo59sroqfn94fqsgq368z7ki44ccg8hhrx3x8" true

/-- Request of the case of lines 307-329. -/
def case05Request (base : String) : Request :=
  { base := base, pathname := "get_asset_frontier",
    issuer := "ban_1ty5s13h9tg9f57gwsto8njkzejfu9tjasc8a9mn1wujfxib8dj7w54jg3qm",
    mint_block_hash := "88A047DA0CF8A07568D8E3BEC6030587988A11581906CBBF372DE32385F35F16",
    height := none }

/-- The case of lines 307-329. -/
def case05 (w : World) (base : String) : List ValidationError :=
  frontierCase w (case05Request base) "88A047DA0CF8A07568D8E3BEC6030587988A11581906CBBF372DE32385F35F16"
    "8B3CC30A16A578DAD88BF455B7646E99CAC5F2D51FC5615DD38C98E64A6F8F37"
    "ban_1twos81eoq9s6d1asht5wwz53m9kw7hkuajad1m4u5otgcsb4qstymquhahf"
    "ban_1twos81eoq9s6d1asht5wwz53m9kw7hkuajad1m4u5otgcsb4qstymquhahf" false

/-- Request of the case of lines 331-353. -/
def case06Request (base : String) : Request :=
  { base := base, pathname := "get_asset_frontier",
    issuer := "ban_1ty5s13h9tg9f57gwsto8njkzejfu9tjasc8a9mn1wujfxib8dj7w54jg3qm",
    mint_block_hash := "D051A922C775616CADC97EB29FD6D75AA514D05ABA4A1252F8B626C9C4F863E8",
    height := none }

/-- The case of lines 331-353. -/
def case06 (w : World) (base : String) : List ValidationError :=
  frontierCase w (case06Request base) "D051A922C775616CADC97EB29FD6D75AA514D05ABA4A1252F8B626C9C4F863E8"
    "D051A922C775616CADC97EB29FD6D75AA514D05ABA4A1252F8B626C9C4F863E8"
    "ban_1twos81eoq9s6d1asht5wwz53m9kw7hkuajad1m4u5otgcsb4qstymquhahf"
    "ban_1twos81eoq9s6d1asht5wwz53m9kw7hkuajad1m4u5otgcsb4qstymquhahf" false

/-- Request of the case of lines 355-378. -/
def case07Request (base : String) : Request :=
  { base := base, pathname := "get_asset_frontier",
    issuer := "ban_1ty5s13h9tg9f57gwsto8njkzejfu9tjasc8a9mn1wujfxib8dj7w54jg3qm",
    mint_block_hash := "777B8264AFDF004C77285CBBA7F208D2BB5A64118FBB5DCCA7D2619374CB3C4A",
    height := none }

/-- The case of lines 355-378. -/
def case07 (w : World) (base : String) : List ValidationError :=
  frontierCase w (case07Request base) "777B8264AFDF004C77285CBBA7F208D2BB5A64118FBB5DCCA7D2619374CB3C4A"
    "777B8264AFDF004C77285CBBA7F208D2BB5A64118FBB5DCCA7D2619374CB3C4A"
    "ban_1ty5s13h9tg9f57gwsto8njkzejfu9tjasc8a9mn1wujfxib8dj7w54jg3qm"
    "ban_1ty5s13h9tg9f57gwsto8njkzejfu9tjasc8a9mn1wujfxib8dj7w54jg3qm" false

/-- Request of the case of lines 380-403. -/
def case08Request (base : String) : Request :=
  { base := base, pathname := "get_asset_frontier",
    issuer := "ban_1ty5s13h9tg9f57gwsto8njkzejfu9tjasc8a9mn1wujfxib8dj7w54jg3qm",
    mint_block_hash := "6F7ED78C5A40145EDCA76B63B1F525DC38A6A4597D59274FBEEED32619C8AF43",
    height := none }

/-- The case of lines 380-403. -/
def case08 (w : World) (base : String) : List ValidationError :=
  frontierCase w (case08Request base) "6F7ED78C5A40145EDCA76B63B1F525DC38A6A4597D59274FBEEED32619C8AF43"
    "6F7ED78C5A40145EDCA76B63B1F525DC38A6A4597D59274FBEEED32619C8AF43"
    "ban_1twos81eoq9s6d1asht5wwz53m9kw7hkuajad1m4u5otgcsb4qstymquhahf"
    "ban_1twos81eoq9s6d1asht5wwz53m9kw7hkuajad1m4u5otgcsb4qstymquhahf" false

/-- Request of the case of lines 405-427. -/
def case09Request (base : String) : Request :=
  { base := base, pathname := "get_asset_frontier",
    issuer := "ban_1ty5s13h9tg9f57gwsto8njkzejfu9tjasc8a9mn1wujfxib8dj7w54jg3qm",
    mint_block_hash := "87F0D105A36BA43C87AF399B84B8BBF8EED0BDD71279AACC33496809D5E28B66",
    height := none }

/-- The case of lines 405-427. -/
def case09 (w : World) (base : String) : List ValidationError :=
  frontierCase w (case09Request base) "87F0D105A36BA43C87AF399B84B8BBF8EED0BDD71279AACC33496809D5E28B66"
    "FB61B5787732E7C92945545B1D926BC6C04A4A5349ADE86A38AD65CF09D4B955"
    "ban_1oozinhbrw7nrjfmtq1roybi8t7q7jywwne4pjto7oy78injdmn4n3a5w5br"
    "ban_1oozinhbrw7nrjfmtq1roybi8t7q7jywwne4pjto7oy78injdmn4n3a5w5br" false

/-- Request of the case of lines 429-453. -/
def case10Request (base : String) : Request :=
  { base := base, pathname := "get_asset_at_height",
    issuer := "ban_1ty5s13h9tg9f57gwsto8njkzejfu9tjasc8a9mn1wujfxib8dj7w54jg3qm",
    mint_block_hash := "68EB50EF45651590ECC6136D20BBC8D68ECF0C352FC50DBFEC00C3DB3F5F934D",
    height := some 2 }

/-- The case of lines 429-453. -/
def case10 (w : World) (base : String) : List ValidationError :=
  frontierCase w (case10Request base) "68EB50EF45651590ECC6136D20BBC8D68ECF0C352FC50DBFEC00C3DB3F5F934D"
    "31C4279ACE505BFACE38BBE4883B1D928C7742BE0C042FF92C8D69C6C8D4B1E1"
    "ban_3testz6spgm48ax8kcwah6swo59sroqfn94fqsgq368z7ki44ccg8hhrx3x8"
    "ban_3testz6spgm48ax8kcwah6swo59sroqfn94fqsgq368z7ki44ccg8hhrx3x8" false

/-- Request of the case of lines 455-477. -/
def case11Request (base : String) : Request :=
  { base := base, pathname := "get_asset_frontier",
    issuer := "ban_1swapxh34bjstbc8c5tonbncw5nrc6sgk7h71bxtetty3huiqcj6mja9rxjt",
    mint_block_hash := "01C876EE1CB115E166BF96FB1218EE0107CF07B6F9FD62ED02A40062360DF20A",
    height := none }

/-- The case of lines 455-477. -/
def case11 (w : World) (base : String) : List ValidationError :=
  frontierCase w (case11Request base) "01C876EE1CB115E166BF96FB1218EE0107CF07B6F9FD62ED02A40062360DF20A"
    "E8285EBCF17C5FD0DFDCE086253A72D4795032FB5E23F8D13880954D8BB8AE56"
    "ban_1buyayd6csb1rwprgcks9sif66hthrbu9jah5ehspmsxghi63ter8f66cy1p"
    "ban_1buyayd6csb1rwprgcks9sif66hthrbu9jah5ehspmsxghi63ter8f66cy1p" false

/-- The error returned by the chain-length case, lines 484-489; `length` is
the value read from `asset_chain.length`. -/
def chainLengthError (length : JVal) : ValidationError :=
  { type := "incorrect data", field := some "asset_chain.length",
    mint_block_hash := some requestAssetChainMintBlockHash,
    message := .str ("Expected NFT with mint block hash: " ++ requestAssetChainMintBlockHash
      ++ " to have an asset chain length of 3, got: " ++ length.toStr
      ++ ". Atomic swap blocks with receive height set to less than two should be ignored.") }

/-- The case of lines 479-497, on the response kept by the setup
(`undefined` when the setup fetch failed). -/
def case12 (requestAssetChainResponse : JVal) : List ValidationError :=
  match (do
    let assetChain ← getProp requestAssetChainResponse "asset_chain"
    let length ← getLength assetChain
    if length.strictEq (.num 3) then
      pure []
    else
      pure [chainLengthError length]) with
  | .ok errors => errors
  | .error error => [exceptionError error]

/-- First request of the case of lines 499-545. -/
def case13Request1 (base : String) : Request :=
  { base := base, pathname := "get_asset_frontier",
    issuer := "ban_3cantszxkej3kzcjjpxcu35jcn6ck884uu3q8ypd3xc1e1y61tt6jj7p99yd",
    mint_block_hash := "3B8A04CC4D4219265AF0A5AC71B2340B025A58270FF3845F680FA95ABE1F58EE",
    height := none }

/-- Second request of the case of lines 499-545. -/
def case13Request2 (base : String) : Request :=
  { base := base, pathname := "get_asset_frontier",
    issuer := "ban_3cantszxkej3kzcjjpxcu35jcn6ck884uu3q8ypd3xc1e1y61tt6jj7p99yd",
    mint_block_hash := "F08725F34398942CADE0BD9F151CFB71ECFCDC408B3D73A2072373CBF153D695",
    height := none }

/-- Validation of the first response of the case of lines 499-545 (line 522). -/
def case13Validate1 (assetBlock : JVal) : Except Fault (List ValidationError) :=
  validateAssetBlock assetBlock
    "3B8A04CC4D4219265AF0A5AC71B2340B025A58270FF3845F680FA95ABE1F58EE"
    "3B8A04CC4D4219265AF0A5AC71B2340B025A58270FF3845F680FA95ABE1F58EE"
    "ban_3cantszxkej3kzcjjpxcu35jcn6ck884uu3q8ypd3xc1e1y61tt6jj7p99yd"
    "ban_3cantszxkej3kzcjjpxcu35jcn6ck884uu3q8ypd3xc1e1y61tt6jj7p99yd" false

/-- Validation of the second response (line 536). -/
def case13Validate2 (assetBlock : JVal) : Except Fault (List ValidationError) :=
  validateAssetBlock assetBlock
    "F08725F34398942CADE0BD9F151CFB71ECFCDC408B3D73A2072373CBF153D695"
    "F08725F34398942CADE0BD9F151CFB71ECFCDC408B3D73A2072373CBF153D695"
    "ban_3cantszxkej3kzcjjpxcu35jcn6ck884uu3q8ypd3xc1e1y61tt6jj7p99yd"
    "ban_3cantszxkej3kzcjjpxcu35jcn6ck884uu3q8ypd3xc1e1y61tt6jj7p99yd" false

/-- One of the two `try` blocks of the case of lines 499-545: what it pushes
to `errors`, the validation errors or, from `catch`, one exception entry. -/
def case13Block (w : World) (request : Request)
    (validate : JVal → Except Fault (List ValidationError)) : List ValidationError :=
  match (do
    let assetBlock ← fetchJson w request
    validate assetBlock) with
  | .ok validationErrors => validationErrors
  | .error error => [exceptionError error]

/-- The case of lines 499-545: two `try` blocks in sequence, each with its own
`catch`, pushing to one `errors` array. -/
def case13 (w : World) (base : String) : List ValidationError :=
  let errors : List ValidationError := []
  let errors := errors ++ case13Block w (case13Request1 base) case13Validate1
  let errors := errors ++ case13Block w (case13Request2 base) case13Validate2
  errors

/-- The case of lines 547-564, on the response kept by the setup. -/
def case14 (w : World) (requestAssetChainResponse : JVal) : List ValidationError :=
  match (do
    let assetChain ← getProp requestAssetChainResponse "asset_chain"
    let _ ← getLength assetChain
    let frontier := lastOf w assetChain
    validateAssetBlock frontier requestAssetChainMintBlockHash
      "F8BD752EDB490FC4B505ED878981240A79DB5C0490F7242388EF5E183E17EF29"
      "ban_1swapxh34bjstbc8c5tonbncw5nrc6sgk7h71bxtetty3huiqcj6mja9rxjt"
      "ban_1swapxh34bjstbc8c5tonbncw5nrc6sgk7h71bxtetty3huiqcj6mja9rxjt" false) with
  | .ok errors => errors
  | .error error => [exceptionError error]

/-- Request of the case of lines 566-590. -/
def case15Request (base : String) : Request :=
  { base := base, pathname := "get_asset_frontier",
    issuer := "ban_1swapxh34bjstbc8c5tonbncw5nrc6sgk7h71bxtetty3huiqcj6mja9rxjt",
    mint_block_hash := "09ABEBF530CD96A30FA4F58B458AB7378DF6432CFC39040F6224195A006D65BA",
    height := none }

/-- The case of lines 566-590. -/
def case15 (w : World) (base : String) : List ValidationError :=
  frontierCase w (case15Request base) "09ABEBF530CD96A30FA4F58B458AB7378DF6432CFC39040F6224195A006D65BA"
    "2EEFFD2621E2260255F200131B3CAF3D25271076DB5E8AE856DCE8BBB2DC1875"
    "ban_1swapxh34bjstbc8c5tonbncw5nrc6sgk7h71bxtetty3huiqcj6mja9rxjt"
    "ban_1swapxh34bjstbc8c5tonbncw5nrc6sgk7h71bxtetty3huiqcj6mja9rxjt" false

/-- Request of the case of lines 592-613. -/
def case16Request (base : String) : Request :=
  { base := base, pathname := "get_asset_frontier",
    issuer := "ban_3cantszxkej3kzcjjpxcu35jcn6ck884uu3q8ypd3xc1e1y61tt6jj7p99yd",
    mint_block_hash := "050D2C75CE68241CF5E3CD180411A73A75A1781D5B2D5BAA26059A06811689A7",
    height := none }

/-- The case of lines 592-613. -/
def case16 (w : World) (base : String) : List ValidationError :=
  frontierCase w (case16Request base) "050D2C75CE68241CF5E3CD180411A73A75A1781D5B2D5BAA26059A06811689A7"
    "B6B01C3701CFE5C091FB6DC068075D7A567926C74C44B1BC6F0FAE3BD18A0F6B"
    "ban_3cantszxkej3kzcjjpxcu35jcn6ck884uu3q8ypd3xc1e1y61tt6jj7p99yd"
    "ban_3cantszxkej3kzcjjpxcu35jcn6ck884uu3q8ypd3xc1e1y61tt6jj7p99yd" false

/-- Request of the case of lines 615-636. -/
def case17Request (base : String) : Request :=
  { base := base, pathname := "get_asset_frontier",
    issuer := "ban_3cantszxkej3kzcjjpxcu35jcn6ck884uu3q8ypd3xc1e1y61tt6jj7p99yd",
    mint_block_hash := "AE29A6AE92A3F78A49D6F1A82C014276FE95140963FCED2410A640A5173A1FC8",
    height := none }

/-- The case of lines 615-636. -/
def case17 (w : World) (base : String) : List ValidationError :=
  frontierCase w (case17Request base) "AE29A6AE92A3F78A49D6F1A82C014276FE95140963FCED2410A640A5173A1FC8"
    "292A27AC9930DFAA00356AF1B78960A2FF785ABDD8999C2FB3D0F20C99A822A0"
    "ban_3cantszxkej3kzcjjpxcu35jcn6ck884uu3q8ypd3xc1e1y61tt6jj7p99yd"
    "ban_3cantszxkej3kzcjjpxcu35jcn6ck884uu3q8ypd3xc1e1y61tt6jj7p99yd" false

/-- Request of the case of lines 638-659. -/
def case18Request (base : String) : Request :=
  { base := base, pathname := "get_asset_frontier",
    issuer := "ban_3cantszxkej3kzcjjpxcu35jcn6ck884uu3q8ypd3xc1e1y61tt6jj7p99yd",
    mint_block_hash := "B0BB1D5000D4A9E51993968C25A27804FC5551CFB18656B9FD7444D70C496A11",
    height := none }

/-- The case of lines 638-659. -/
def case18 (w : World) (base : String) : List ValidationError :=
  frontierCase w (case18Request base) "B0BB1D5000D4A9E51993968C25A27804FC5551CFB18656B9FD7444D70C496A11"
    "1ACDBFDF725D5738CD6B6454464FA1313574C056626ECEFCA8C4B5D564F75338"
    "ban_3cantszxkej3kzcjjpxcu35jcn6ck884uu3q8ypd3xc1e1y61tt6jj7p99yd"
    "ban_3cantszxkej3kzcjjpxcu35jcn6ck884uu3q8ypd3xc1e1y61tt6jj7p99yd" false

/-- Request of the case of lines 661-683. -/
def case19Request (base : String) : Request :=
  { base := base, pathname := "get_asset_frontier",
    issuer := "ban_3cantszxkej3kzcjjpxcu35jcn6ck884uu3q8ypd3xc1e1y61tt6jj7p99yd",
    mint_block_hash := "32A3470B9217D796E16D2CE2445A5FC84F023695B099D2AE6B4B3133FF313CA6",
    height := none }

/-- The case of lines 661-683. -/
def case19 (w : World) (base : String) : List ValidationError :=
  frontierCase w (case19Request base) "32A3470B9217D796E16D2CE2445A5FC84F023695B099D2AE6B4B3133FF313CA6"
    "A5FE789EF4C2E52EEFB31F3356581317FF5D1C8F9DEACDC4AE85EE8AB5D3E56A"
    "ban_3cantszxkej3kzcjjpxcu35jcn6ck884uu3q8ypd3xc1e1y61tt6jj7p99yd"
    "ban_3cantszxkej3kzcjjpxcu35jcn6ck884uu3q8ypd3xc1e1y61tt6jj7p99yd" false

/-- The names of the registered cases, in the order of the `await test(...)`
calls. -/
def caseNames : List String :=
  [
    "confirms change#mint > send#asset > receive#asset",
    "confirms send#mint > receive#asset",
    "send all NFTs command sends all NFTs",
    "doesn't transfer ownership while send#atomic_swap and receive#atomic swap is confirmed but send#payment or #abort_payment isn't submitted on-chain",
    "unreceived change#mint, send#asset is owned by recipient but not sendable",
    "unreceived send#mint is owned by recipient but not sendable",
    "is unable to send assets owned by someone else",
    "ignores send#asset block for asset you have already sent with a send#mint block",
    "traces chain of sends",
    "ignores send#asset before receive#asset and after previously confirmed send#asset",
    "confirms completed valid atomic swap",
    "ignores invalid send#atomic_swap where encoded receive height is less than 2",
    "ignores invalid send#atomic_swap where exact raw amount sent isn't exactly 1 raw",
    "cancels atomic swap if paying account balance is less than min raw in block at: receive height - 1",
    "cancels atomic swap if receive#atomic_swap block has a different representative than previous block",
    "cancels atomic swap if a block other than the relevant receive#atomic_swap is confirmed at receive_height",
    "cancels atomic swap if a block other than send#payment follows receive#atomic_swap",
    "cancels atomic swap if send#payment sends too little raw to the right account",
    "cancels atomic swap if send#payment sends enough raw to the wrong account"
  ]

/-- How an asynchronous call ends: it returns a value, it throws a fault, or
the process is ended by an unhandled rejection before it does either. -/
inductive Run (α : Type) where
  | returned (value : α) : Run α
  | threw (fault : Fault) : Run α
  | exited : Run α

/-- A registered case: its name and how the call of its function ends, `none`
when the process is ended while the function runs. -/
abbrev Case := String × (Unit → Option (Except Fault (List ValidationError)))

/-- The sequence of `await test(name, report, res, fn)` calls of lines 145-683.
Every case function ends in `return`, from `try` or from `catch`, unless the
process is ended first, which only the case of lines 198-279 allows. -/
def catalog (w : World) (base : String) (requestAssetChainResponse : JVal)
    (errors : List ValidationError) : List Case :=
  (caseNames.zip
    [some (case01 w base errors), some (case02 w base), case03 w base, some (case04 w base),
     some (case05 w base), some (case06 w base), some (case07 w base), some (case08 w base),
     some (case09 w base), some (case10 w base), some (case11 w base),
     some (case12 requestAssetChainResponse), some (case13 w base),
     some (case14 w requestAssetChainResponse), some (case15 w base), some (case16 w base),
     some (case17 w base), some (case18 w base), some (case19 w base)]).map
    (fun p => (p.1, fun _ => p.2.map Except.ok))

/-- Running the registered cases one after the other through `test`; `none`
when the process is ended while a case function runs. -/
def runCases : List Case → Report → Option Sink → Option (Report × Option Sink)
  | [], report, res => some (report, res)
  | (name, fn) :: rest, report, res =>
    match fn () with
    | none => none
    | some result =>
      let step := test name report res (fun _ => result)
      runCases rest step.1 step.2

/-- The function `diagnose` of `src/diagnose.js`, lines 120-686: it faults when
the base address is not a URL; otherwise the setup fetch fills
`requestAssetChainResponse` or, on a fault, leaves it `undefined` and pushes an
exception entry to `errors`; then the cases run and the report is returned. -/
def diagnose (w : World) (baseUrlString : String) (res : Option Sink) :
    Run (Report × Option Sink) :=
  if w.parsesAsUrl baseUrlString then
    let report : Report := []
    let errors : List ValidationError := []
    let setup := fetchJson w (requestHistoryUrl baseUrlString)
    let requestAssetChainResponse : JVal :=
      match setup with
      | .ok value => value
      | .error _ => .undefined
    let errors : List ValidationError :=
      match setup with
      | .ok _ => errors
      | .error error => errors ++ [exceptionError error]
    match runCases (catalog w baseUrlString requestAssetChainResponse errors) report res with
    | some out => .returned out
    | none => .exited
  else
    .threw invalidUrlFault

/-! ## Sample remote APIs -/

/-- For each mint block hash a case asks about, the block the case expects. -/
def expectedBlocks : List (String × JVal) :=
  [
    ("F61CCF94D6E5CFE9601C436ACC3976AF876D1DA21909FEB88B629BEDEC4DF1EA",
      exampleBlock "201D206790E46B4CB24CA9F0DB370F8F4BA2E905D66E8DE825D36A9D0E775DAB"
        "ban_1twos81eoq9s6d1asht5wwz53m9kw7hkuajad1m4u5otgcsb4qstymquhahf"
        "ban_1twos81eoq9s6d1asht5wwz53m9kw7hkuajad1m4u5otgcsb4qstymquhahf" (.bool false)),
    ("EFE6CCFDE4FD56E60F302F22DCF41E736F611124E3F463135FDC31769A68B970",
      exampleBlock "F00B3B6F2F7CD59B7383F3950CF554B22379F79D3AB607D74FDFA91EC55ED0C0"
        "ban_1twos81eoq9s6d1asht5wwz53m9kw7hkuajad1m4u5otgcsb4qstymquhahf"
        "ban_1twos81eoq9s6d1asht5wwz53m9kw7hkuajad1m4u5otgcsb4qstymquhahf" (.bool false)),
    ("698625D8B57D695D45D4597EF5EEBC7DC31B9A706CCA1D26EAA72F8063B6E385",
      exampleBlock "024ACA494596E054C94E86A11C881018F6A0D73B108D1A0D15A66F91ADCEC1D8"
        "ban_3cantszxkej3kzcjjpxcu35jcn6ck884uu3q8ypd3xc1e1y61tt6jj7p99yd"
        "ban_3testz6spgm48ax8kcwah6swo59sroqfn94fqsgq368z7ki44ccg8hhrx3x8" (.bool true)),
    ("56A2251E0C20CE9B81269E1916858FB2FE178543FA2ED05522D66FC74EC6DD8D",
      exampleBlock "D29F111B51E113F58A1805379CB880564402B6DC430B59DE4598E5A5ED36AF3A"
        "ban_1sweep4n54fbbrzaj1cnr7drf4udbf6f66un3zikhwm6f497pk5ftar3tekj"
        "ban_1sweep4n54fbbrzaj1cnr7drf4udbf6f66un3zikhwm6f497pk5ftar3tekj" (.bool false)),
    ("A8748C3ABC82C1FC18CD2E9A2AB1AA13E5FCC88F71B1BEBF0C44BE7A520AD393",
      exampleBlock "024ACA494596E054C94E86A11C881018F6A0D73B108D1A0D15A66F91ADCEC1D8"
        "ban_3cantszxkej3kzcjjpxcu35jcn6ck884uu3q8ypd3xc1e1y61tt6jj7p99yd"
        "ban_3testz6spgm48ax8kcwah6swo59sroqfn94fqsgq368z7ki44ccg8hhrx3x8" (.bool true)),
    ("95C9F6EE6038C3DBD7450EC3435203FF3C623EEA8673B7E41077D3DBE875325C",
      exampleBlock "95C9F6EE6038C3DBD7450EC3435203FF3C623EEA8673B7E41077D3DBE875325C"
        "ban_1sweep4n54fbbrzaj1cnr7drf4udbf6f66un3zikhwm6f497pk5ftar3tekj"
        "ban_1sweep4n54fbbrzaj1cnr7drf4udbf6f66un3zikhwm6f497pk5ftar3tekj" (.bool false)),
    ("9DBA255E5D311A5D519CF3B3D182E7120D8A94BCF450FFFB7C44FF9569B41CCF",
      exampleBlock "024ACA494596E054C94E86A11C881018F6A0D73B108D1A0D15A66F91ADCEC1D8"
        "ban_3cantszxkej3kzcjjpxcu35jcn6ck884uu3q8ypd3xc1e1y61tt6jj7p99yd"
        "ban_3testz6spgm48ax8kcwah6swo59sroqfn94fqsgq368z7ki44ccg8hhrx3x8" (.bool true)),
    ("88A047DA0CF8A07568D8E3BEC6030587988A11581906CBBF372DE32385F35F16",
      exampleBlock "8B3CC30A16A578DAD88BF455B7646E99CAC5F2D51FC5615DD38C98E64A6F8F37"
        "ban_1twos81eoq9s6d1asht5wwz53m9kw7hkuajad1m4u5otgcsb4qstymquhahf"
        "ban_1twos81eoq9s6d1asht5wwz53m9kw7hkuajad1m4u5otgcsb4qstymquhahf" (.bool false)),
    ("D051A922C775616CADC97EB29FD6D75AA514D05ABA4A1252F8B626C9C4F863E8",
      exampleBlock "D051A922C775616CADC97EB29FD6D75AA514D05ABA4A1252F8B626C9C4F863E8"
        "ban_1twos81eoq9s6d1asht5wwz53m9kw7hkuajad1m4u5otgcsb4qstymquhahf"
        "ban_1twos81eoq9s6d1asht5wwz53m9kw7hkuajad1m4u5otgcsb4qstymquhahf" (.bool false)),
    ("777B8264AFDF004C77285CBBA7F208D2BB5A64118FBB5DCCA7D2619374CB3C4A",
      exampleBlock "777B8264AFDF004C77285CBBA7F208D2BB5A64118FBB5DCCA7D2619374CB3C4A"
        "ban_1ty5s13h9tg9f57gwsto8njkzejfu9tjasc8a9mn1wujfxib8dj7w54jg3qm"
        "ban_1ty5s13h9tg9f57gwsto8njkzejfu9tjasc8a9mn1wujfxib8dj7w54jg3qm" (.bool false)),
    ("6F7ED78C5A40145EDCA76B63B1F525DC38A6A4597D59274FBEEED32619C8AF43",
      exampleBlock "6F7ED78C5A40145EDCA76B63B1F525DC38A6A4597D59274FBEEED32619C8AF43"
        "ban_1twos81eoq9s6d1asht5wwz53m9kw7hkuajad1m4u5otgcsb4qstymquhahf"
        "ban_1twos81eoq9s6d1asht5wwz53m9kw7hkuajad1m4u5otgcsb4qstymquhahf" (.bool false)),
    ("87F0D105A36BA43C87AF399B84B8BBF8EED0BDD71279AACC33496809D5E28B66",
      exampleBlock "FB61B5787732E7C92945545B1D926BC6C04A4A5349ADE86A38AD65CF09D4B955"
        "ban_1oozinhbrw7nrjfmtq1roybi8t7q7jywwne4pjto7oy78injdmn4n3a5w5br"
        "ban_1oozinhbrw7nrjfmtq1roybi8t7q7jywwne4pjto7oy78injdmn4n3a5w5br" (.bool false)),
    ("68EB50EF45651590ECC6136D20BBC8D68ECF0C352FC50DBFEC00C3DB3F5F934D",
      exampleBlock "31C4279ACE505BFACE38BBE4883B1D928C7742BE0C042FF92C8D69C6C8D4B1E1"
        "ban_3testz6spgm48ax8kcwah6swo59sroqfn94fqsgq368z7ki44ccg8hhrx3x8"
        "ban_3testz6spgm48ax8kcwah6swo59sroqfn94fqsgq368z7ki44ccg8hhrx3x8" (.bool false)),
    ("01C876EE1CB115E166BF96FB1218EE0107CF07B6F9FD62ED02A40062360DF20A",
      exampleBlock "E8285EBCF17C5FD0DFDCE086253A72D4795032FB5E23F8D13880954D8BB8AE56"
        "ban_1buyayd6csb1rwprgcks9sif66hthrbu9jah5ehspmsxghi63ter8f66cy1p"
        "ban_1buyayd6csb1rwprgcks9sif66hthrbu9jah5ehspmsxghi63ter8f66cy1p" (.bool false)),
    ("3B8A04CC4D4219265AF0A5AC71B2340B025A58270FF3845F680FA95ABE1F58EE",
      exampleBlock "3B8A04CC4D4219265AF0A5AC71B2340B025A58270FF3845F680FA95ABE1F58EE"
        "ban_3cantszxkej3kzcjjpxcu35jcn6ck884uu3q8ypd3xc1e1y61tt6jj7p99yd"
        "ban_3cantszxkej3kzcjjpxcu35jcn6ck884uu3q8ypd3xc1e1y61tt6jj7p99yd" (.bool false)),
    ("F08725F34398942CADE0BD9F151CFB71ECFCDC408B3D73A2072373CBF153D695",
      exampleBlock "F08725F34398942CADE0BD9F151CFB71ECFCDC408B3D73A2072373CBF153D695"
        "ban_3cantszxkej3kzcjjpxcu35jcn6ck884uu3q8ypd3xc1e1y61tt6jj7p99yd"
        "ban_3cantszxkej3kzcjjpxcu35jcn6ck884uu3q8ypd3xc1e1y61tt6jj7p99yd" (.bool false)),
    ("09ABEBF530CD96A30FA4F58B458AB7378DF6432CFC39040F6224195A006D65BA",
      exampleBlock "2EEFFD2621E2260255F200131B3CAF3D25271076DB5E8AE856DCE8BBB2DC1875"
        "ban_1swapxh34bjstbc8c5tonbncw5nrc6sgk7h71bxtetty3huiqcj6mja9rxjt"
        "ban_1swapxh34bjstbc8c5tonbncw5nrc6sgk7h71bxtetty3huiqcj6mja9rxjt" (.bool false)),
    ("050D2C75CE68241CF5E3CD180411A73A75A1781D5B2D5BAA26059A06811689A7",
      exampleBlock "B6B01C3701CFE5C091FB6DC068075D7A567926C74C44B1BC6F0FAE3BD18A0F6B"
        "ban_3cantszxkej3kzcjjpxcu35jcn6ck884uu3q8ypd3xc1e1y61tt6jj7p99yd"
        "ban_3cantszxkej3kzcjjpxcu35jcn6ck884uu3q8ypd3xc1e1y61tt6jj7p99yd" (.bool false)),
    ("AE29A6AE92A3F78A49D6F1A82C014276FE95140963FCED2410A640A5173A1FC8",
      exampleBlock "292A27AC9930DFAA00356AF1B78960A2FF785ABDD8999C2FB3D0F20C99A822A0"
        "ban_3cantszxkej3kzcjjpxcu35jcn6ck884uu3q8ypd3xc1e1y61tt6jj7p99yd"
        "ban_3cantszxkej3kzcjjpxcu35jcn6ck884uu3q8ypd3xc1e1y61tt6jj7p99yd" (.bool false)),
    ("B0BB1D5000D4A9E51993968C25A27804FC5551CFB18656B9FD7444D70C496A11",
      exampleBlock "1ACDBFDF725D5738CD6B6454464FA1313574C056626ECEFCA8C4B5D564F75338"
        "ban_3cantszxkej3kzcjjpxcu35jcn6ck884uu3q8ypd3xc1e1y61tt6jj7p99yd"
        "ban_3cantszxkej3kzcjjpxcu35jcn6ck884uu3q8ypd3xc1e1y61tt6jj7p99yd" (.bool false)),
    ("32A3470B9217D796E16D2CE2445A5FC84F023695B099D2AE6B4B3133FF313CA6",
      exampleBlock "A5FE789EF4C2E52EEFB31F3356581317FF5D1C8F9DEACDC4AE85EE8AB5D3E56A"
        "ban_3cantszxkej3kzcjjpxcu35jcn6ck884uu3q8ypd3xc1e1y61tt6jj7p99yd"
        "ban_3cantszxkej3kzcjjpxcu35jcn6ck884uu3q8ypd3xc1e1y61tt6jj7p99yd" (.bool false))
  ]

/-- A transport fault. -/
def socketFault : Fault := { name := "FetchError", message := "socket hang up" }

/-- A remote API that answers every frontier and height request with the block
the case expects and answers the `get_asset_chain` request with `chain`. -/
def expectedWorld (chain : Except Fault Response) : World :=
  { parsesAsUrl := fun _ => true,
    fetch := fun request =>
      if request.pathname = "get_asset_chain" then chain
      else .ok (.ok (lookupProp request.mint_block_hash expectedBlocks)),
    settleRank := fun _ => 0,
    lastEntry := fun _ => .undefined }

/-- The `success` flags of a report, in the order of its entries; the empty
list when `diagnose` returned no report. -/
def successFlags (result : Run (Report × Option Sink)) : List Bool :=
  match result with
  | .returned out => out.1.map (fun p => p.2.success)
  | _ => []

/-- The names of the entries of a report, in order. -/
def reportNames (report : Report) : List String := report.map (fun p => p.1)

/-- The entry `report[name]` of the report `diagnose` returned; `none` when
there is no such entry or `diagnose` returned no report. -/
def entryOf (result : Run (Report × Option Sink)) (name : String) : Option Outcome :=
  match result with
  | .returned out => getEntry out.1 name
  | _ => none

/-- The single-request cases that declare their own error list, each with its
request: the cases of lines 171-196, 281-477 and 566-683. -/
def singleRequestCases (w : World) (base : String) : List (Request × List ValidationError) :=
  [(case02Request base, case02 w base), (case04Request base, case04 w base),
   (case05Request base, case05 w base), (case06Request base, case06 w base),
   (case07Request base, case07 w base), (case08Request base, case08 w base),
   (case09Request base, case09 w base), (case10Request base, case10 w base),
   (case11Request base, case11 w base), (case15Request base, case15 w base),
   (case16Request base, case16 w base), (case17Request base, case17 w base),
   (case18Request base, case18 w base), (case19Request base, case19 w base)]

/-- A remote API that answers the first request of the four-mint case with
`null` and every other request with the empty object. -/
def nullFirstWorld : World :=
  { parsesAsUrl := fun _ => true,
    fetch := fun request =>
      if request.mint_block_hash
          = "698625D8B57D695D45D4597EF5EEBC7DC31B9A706CCA1D26EAA72F8063B6E385" then
        .ok (.ok .null)
      else .ok (.ok (.obj [])),
    settleRank := fun _ => 0,
    lastEntry := fun _ => .undefined }

/-- A remote API that is down: every fetch faults. -/
def downWorld : World :=
  { parsesAsUrl := fun _ => true,
    fetch := fun _ => .error socketFault,
    settleRank := fun _ => 0,
    lastEntry := fun _ => .undefined }

/-- A chain response of length 3 whose last block is the one the case of lines
547-564 expects. -/
def expectedChainResponse : JVal :=
  .obj [("asset_chain", .arr [.obj [], .obj [],
    exampleBlock "F8BD752EDB490FC4B505ED878981240A79DB5C0490F7242388EF5E183E17EF29"
      "ban_1swapxh34bjstbc8c5tonbncw5nrc6sgk7h71bxtetty3huiqcj6mja9rxjt"
      "ban_1swapxh34bjstbc8c5tonbncw5nrc6sgk7h71bxtetty3huiqcj6mja9rxjt" (.bool false)])]

/-- A remote API that answers as the cases expect, except that the second
fetch of the four-mint case faults, and does so while the first fetch is still
pending. -/
def earlyFaultWorld : World :=
  { parsesAsUrl := fun _ => true,
    fetch := fun request =>
      if request.mint_block_hash
          = "56A2251E0C20CE9B81269E1916858FB2FE178543FA2ED05522D66FC74EC6DD8D" then
        .error socketFault
      else (expectedWorld (.ok (.ok expectedChainResponse))).fetch request,
    settleRank := fun request =>
      if request.mint_block_hash
          = "698625D8B57D695D45D4597EF5EEBC7DC31B9A706CCA1D26EAA72F8063B6E385" then 1
      else 0,
    lastEntry := fun _ => .undefined }

/-- A remote API that answers as the cases expect, except that the parsing of
the first response of the four-mint case faults. -/
def badBodyWorld : World :=
  { parsesAsUrl := fun _ => true,
    fetch := fun request =>
      if request.mint_block_hash
          = "698625D8B57D695D45D4597EF5EEBC7DC31B9A706CCA1D26EAA72F8063B6E385" then
        .ok (.error { name := "SyntaxError", message := "Unexpected end of JSON input" })
      else (expectedWorld (.ok (.ok expectedChainResponse))).fetch request,
    settleRank := fun _ => 0,
    lastEntry := fun _ => .undefined }

/-- Two remote APIs: the one at the base address `good` answers every request
as the cases expect; the one at any other base address answers every request
with `{error: 'unknown asset'}`. No request faults. -/
def twoSiteWorld (good : String) : World :=
  { parsesAsUrl := fun _ => true,
    fetch := fun request =>
      if request.base = good then
        (expectedWorld (.ok (.ok expectedChainResponse))).fetch request
      else .ok (.ok (.obj [("error", .str "unknown asset")])),
    settleRank := fun _ => 0,
    lastEntry := fun _ => .undefined }

/-! ## The presenter -/

/-- The handler `app.post('/')` of `src/server.js`, lines 20-35, for a request
whose body carries `url`: the chunks written to the response and the report
obtained. `diagnoseHtml` is the page read at start-up and `render` stands for
`JSON.stringify(report, null, 4).split(...).join(...)`; headers and the
console are left out. -/
def postHandler (w : World) (render : Report → String) (diagnoseHtml url : String) :
    Run (Report × Sink) :=
  let res : Sink := []
  let res := res.write diagnoseHtml
  let res := res.write "<br><hr><br>"
  let res := res.write "Please wait. Inspecting NFT API at: "
  let diagnoseUrl := url
  let res := res.write diagnoseUrl
  let res := res.write "<br><br>"
  match diagnose w "http://localhost:1919" (some res) with
  | .returned out =>
    let report := out.1
    let res : Sink := out.2.getD []
    let res := res.write "<hr><p>"
    let res := res.write (render report)
    let res := res.write "</p>"
    .returned (report, res)
  | .threw fault => .threw fault
  | .exited => .exited

/-- The `success` flags of the report a handler run obtained. -/
def handlerFlags (result : Run (Report × Sink)) : List Bool :=
  match result with
  | .returned out => out.1.map (fun p => p.2.success)
  | _ => []

/-- The chunks a handler run wrote before it called `diagnose`. -/
def handlerPreamble (result : Run (Report × Sink)) : List String :=
  match result with
  | .returned out => out.2.take 5
  | _ => []

/-! ## Basic facts -/

theorem getProp_of_error_ok {observed e : JVal} (key : String)
    (h : getProp observed "error" = .ok e) : getProp observed key = .ok (observed.field key) := by
  cases observed <;> simp_all [getProp]

theorem getEntry_setEntry (report : Report) (name : String) (outcome : Outcome) :
    getEntry (setEntry report name outcome) name = some outcome := by
  induction report with
  | nil => simp [setEntry, getEntry]
  | cons p rest ih =>
    obtain ⟨k, v⟩ := p
    by_cases hk : k = name
    · simp [setEntry, getEntry, hk]
    · simp [setEntry, getEntry, hk, ih]

/-- On a block without an `error` property the validator runs the four field
checks one after the other. -/
theorem validateAssetBlock_fields {observed : JVal} (m eb ea eo : String) (el : Bool)
    (h : getProp observed "error" = .ok .undefined) :
    validateAssetBlock observed m eb ea eo el
      = .ok (pushIfSome (pushIfSome (pushIfSome (pushIfSome [] m "block_hash"
          (stringFieldMessage "block_hash" (observed.field "block_hash") eb)) m "account"
          (stringFieldMessage "account" (observed.field "account") ea)) m "owner"
          (stringFieldMessage "owner" (observed.field "owner") eo)) m "locked"
          (lockedMessage (observed.field "locked") el)) := by
  have hb := getProp_of_error_ok "block_hash" h
  have ha := getProp_of_error_ok "account" h
  have ho := getProp_of_error_ok "owner" h
  have hl := getProp_of_error_ok "locked" h
  simp [validateAssetBlock, h, hb, ha, ho, hl, bind, Except.bind, pure, Except.pure,
    JVal.isUndefined]

theorem stringFieldMessage_eq_none_iff (f : String) (v : JVal) (e : String) :
    stringFieldMessage f v e = none ↔ v = .str e := by
  cases v <;> simp [stringFieldMessage, JVal.typeOf, JVal.strictEq]

theorem lockedMessage_eq_none_iff (v : JVal) (b : Bool) :
    lockedMessage v b = none ↔ v = .bool b := by
  cases v <;> simp [lockedMessage, JVal.typeOf, JVal.looseEqBoolean]

theorem lockedMessage_of_not_boolean (v : JVal) (b : Bool) (h : v.typeOf ≠ "boolean") :
    lockedMessage v b
      = some ("expected typeof locked to be 'boolean', got: '" ++ v.typeOf ++ "'") := by
  simp [lockedMessage, h]

theorem stringFieldFails_iff (f : String) (v : JVal) (e : String) :
    StringFieldFails v e ↔ stringFieldMessage f v e ≠ none := by
  rw [Ne, stringFieldMessage_eq_none_iff]
  constructor
  · rintro (h | h) hv
    · exact h (by rw [hv]; rfl)
    · exact h hv
  · intro h
    exact Or.inr h

theorem lockedFails_iff (v : JVal) (b : Bool) :
    LockedFails v b ↔ lockedMessage v b ≠ none := by
  rw [Ne, lockedMessage_eq_none_iff]
  constructor
  · rintro (h | h) hv
    · exact h (by rw [hv]; rfl)
    · exact h hv
  · intro h
    exact Or.inr h

theorem typeMessage_ne_valueMessage (t a b : String) :
    "expected typeof locked to be 'boolean', got: '" ++ t ++ "'"
      ≠ "expected locked to be " ++ a ++ ", got: " ++ b := by
  intro h
  have h2 := congrArg String.data h
  simp at h2

theorem validateAssetBlock_of_error {observed e : JVal} {m eb ea eo : String} {el : Bool}
    (hread : getProp observed "error" = .ok e) (hdef : e ≠ .undefined) :
    validateAssetBlock observed m eb ea eo el
      = .ok [{ type := "rpc error", mint_block_hash := some m, field := some "",
               message := e }] := by
  have hu : e.isUndefined = false := by
    cases e <;> simp_all [JVal.isUndefined]
  simp [validateAssetBlock, hread, hu, bind, Except.bind, pure, Except.pure]

theorem validateAssetBlock_of_readable {observed : JVal} (m eb ea eo : String) (el : Bool)
    (hn : observed ≠ .null) (hu : observed ≠ .undefined) :
    ∃ errs, validateAssetBlock observed m eb ea eo el = .ok errs := by
  have hread : getProp observed "error" = .ok (observed.field "error") := by
    cases observed <;> simp_all [getProp]
  by_cases he : observed.field "error" = .undefined
  · rw [he] at hread
    exact ⟨_, validateAssetBlock_fields _ _ _ _ _ hread⟩
  · exact ⟨_, validateAssetBlock_of_error hread he⟩

/-! ## The validator -/

/-- C1: when `observed.error` is not `undefined`, `validateAssetBlock` returns
the one-element list `[{type: 'rpc error', mint_block_hash: mintBlockHash,
field: '', message: observed.error}]`, whatever the other properties of the
observed block and whatever the expected values. -/
theorem validateAssetBlock_rpc_error (observed e : JVal) (mintBlockHash expectedBlockHash
    expectedAccount expectedOwner : String) (expectedLocked : Bool)
    (hread : getProp observed "error" = .ok e) (hdef : e ≠ .undefined) :
    validateAssetBlock observed mintBlockHash expectedBlockHash expectedAccount expectedOwner
        expectedLocked
      = .ok [{ type := "rpc error", mint_block_hash := some mintBlockHash, field := some "",
               message := e }] := by
  exact validateAssetBlock_of_error hread hdef

theorem validateAssetBlock_rpc_error_witness :
    validateAssetBlock (.obj [("error", .str "boom"), ("locked", .num 7)]) "M" "ABC" "x" "x" false
      = .ok [{ type := "rpc error", mint_block_hash := some "M", field := some "",
               message := .str "boom" }] :=
  validateAssetBlock_rpc_error (.obj [("error", .str "boom"), ("locked", .num 7)]) (.str "boom")
    "M" "ABC" "x" "x" false rfl (by simp)

/-- C2, refuted as stated: on the JSON value `null` the read `assetBlock.error`
raises a `TypeError`, so `validateAssetBlock` throws instead of returning. -/
theorem validateAssetBlock_null_throws :
    validateAssetBlock .null "M" "ABC" "x" "x" false
      = .error (propertyTypeError .null "error") := by
  rfl

/-- C2, amended: `validateAssetBlock` returns an error list exactly on the
values other than `null` and `undefined`, so it returns a list for every
JSON-shaped object, array, string, number and boolean and throws on `null`. -/
theorem validateAssetBlock_returns_iff (observed : JVal) (mintBlockHash expectedBlockHash
    expectedAccount expectedOwner : String) (expectedLocked : Bool) :
    (∃ errs, validateAssetBlock observed mintBlockHash expectedBlockHash expectedAccount
        expectedOwner expectedLocked = .ok errs)
      ↔ observed ≠ .null ∧ observed ≠ .undefined := by
  constructor
  · rintro ⟨errs, h⟩
    constructor <;> rintro rfl <;>
      simp [validateAssetBlock, getProp, bind, Except.bind] at h
  · rintro ⟨hn, hu⟩
    have hread : getProp observed "error" = .ok (observed.field "error") := by
      cases observed <;> simp_all [getProp]
    by_cases he : observed.field "error" = .undefined
    · rw [he] at hread
      exact ⟨_, validateAssetBlock_fields _ _ _ _ _ hread⟩
    · exact ⟨_, validateAssetBlock_of_error hread he⟩

/-- C3: on a block without an `error` property the four fields are checked
independently, each yielding at most one error: the result holds exactly one
error naming a field when that field fails its check and none when it passes;
the result is empty exactly when all four pass, it has four errors when all
four fail, and the block `{block_hash:'ABC', account:'x', owner:'x',
locked:false}` validated against `'M','ABC','x','x',false` gives `[]`. -/
theorem validateAssetBlock_checks_independent :
    (∀ (observed : JVal) (mintBlockHash expectedBlockHash expectedAccount expectedOwner : String)
      (expectedLocked : Bool), getProp observed "error" = .ok .undefined →
      ∃ errs, validateAssetBlock observed mintBlockHash expectedBlockHash expectedAccount
          expectedOwner expectedLocked = .ok errs
        ∧ (StringFieldFails (observed.field "block_hash") expectedBlockHash →
            (errorsFor "block_hash" errs).length = 1)
        ∧ (¬ StringFieldFails (observed.field "block_hash") expectedBlockHash →
            errorsFor "block_hash" errs = [])
        ∧ (StringFieldFails (observed.field "account") expectedAccount →
            (errorsFor "account" errs).length = 1)
        ∧ (¬ StringFieldFails (observed.field "account") expectedAccount →
            errorsFor "account" errs = [])
        ∧ (StringFieldFails (observed.field "owner") expectedOwner →
            (errorsFor "owner" errs).length = 1)
        ∧ (¬ StringFieldFails (observed.field "owner") expectedOwner →
            errorsFor "owner" errs = [])
        ∧ (LockedFails (observed.field "locked") expectedLocked →
            (errorsFor "locked" errs).length = 1)
        ∧ (¬ LockedFails (observed.field "locked") expectedLocked →
            errorsFor "locked" errs = [])
        ∧ (errs = [] ↔
            ¬ StringFieldFails (observed.field "block_hash") expectedBlockHash
            ∧ ¬ StringFieldFails (observed.field "account") expectedAccount
            ∧ ¬ StringFieldFails (observed.field "owner") expectedOwner
            ∧ ¬ LockedFails (observed.field "locked") expectedLocked)
        ∧ (StringFieldFails (observed.field "block_hash") expectedBlockHash →
            StringFieldFails (observed.field "account") expectedAccount →
            StringFieldFails (observed.field "owner") expectedOwner →
            LockedFails (observed.field "locked") expectedLocked → errs.length = 4))
    ∧ validateAssetBlock (exampleBlock "ABC" "x" "x" (.bool false)) "M" "ABC" "x" "x" false
        = .ok [] := by
  refine ⟨?_, rfl⟩
  intro observed m eb ea eo el h
  refine ⟨_, validateAssetBlock_fields m eb ea eo el h, ?_⟩
  rw [stringFieldFails_iff "block_hash" (observed.field "block_hash") eb,
    stringFieldFails_iff "account" (observed.field "account") ea,
    stringFieldFails_iff "owner" (observed.field "owner") eo,
    lockedFails_iff (observed.field "locked") el]
  generalize stringFieldMessage "block_hash" (observed.field "block_hash") eb = m1
  generalize stringFieldMessage "account" (observed.field "account") ea = m2
  generalize stringFieldMessage "owner" (observed.field "owner") eo = m3
  generalize lockedMessage (observed.field "locked") el = m4
  cases m1 <;> cases m2 <;> cases m3 <;> cases m4 <;>
    simp [pushIfSome, errorsFor, incorrectData]

theorem validateAssetBlock_checks_independent_witness :
    ∃ errs, validateAssetBlock (exampleBlock "XYZ" "x" "y" (.str "true")) "M" "ABC" "x" "x" false
        = .ok errs
      ∧ (errorsFor "block_hash" errs).length = 1 ∧ errorsFor "account" errs = []
      ∧ (errorsFor "owner" errs).length = 1 ∧ (errorsFor "locked" errs).length = 1 := by
  have hread : getProp (exampleBlock "XYZ" "x" "y" (.str "true")) "error" = .ok .undefined := rfl
  obtain ⟨errs, hv, hb, -, -, ha, ho, -, hl, -, -, -⟩ :=
    validateAssetBlock_checks_independent.1 (exampleBlock "XYZ" "x" "y" (.str "true"))
      "M" "ABC" "x" "x" false hread
  refine ⟨errs, hv, hb ?_, ha ?_, ho ?_, hl ?_⟩
  · exact Or.inr (by simp [exampleBlock, JVal.field, lookupProp])
  · rintro (h | h)
    · exact h rfl
    · exact h rfl
  · exact Or.inr (by simp [exampleBlock, JVal.field, lookupProp])
  · exact Or.inl (by simp [exampleBlock, JVal.field, lookupProp, JVal.typeOf])

/-- C4: on a block without an `error` property whose `locked` is not a
boolean, whatever `expectedLocked` is, `validateAssetBlock` returns exactly one
error with field `locked`; its message is the type-mismatch message
`expected typeof locked to be 'boolean', got: '<typeof locked>'` and is not of
the value-mismatch form `expected locked to be ..., got: ...`. -/
theorem validateAssetBlock_locked_not_boolean (observed : JVal) (mintBlockHash expectedBlockHash
    expectedAccount expectedOwner : String) (expectedLocked : Bool)
    (hread : getProp observed "error" = .ok .undefined)
    (htype : (observed.field "locked").typeOf ≠ "boolean") :
    ∃ errs, validateAssetBlock observed mintBlockHash expectedBlockHash expectedAccount
        expectedOwner expectedLocked = .ok errs
      ∧ errorsFor "locked" errs
          = [incorrectData mintBlockHash "locked"
              ("expected typeof locked to be 'boolean', got: '"
                ++ (observed.field "locked").typeOf ++ "'")]
      ∧ ∀ e ∈ errorsFor "locked" errs, ∀ a b : String,
          e.message ≠ .str ("expected locked to be " ++ a ++ ", got: " ++ b) := by
  refine ⟨_, validateAssetBlock_fields mintBlockHash expectedBlockHash expectedAccount
    expectedOwner expectedLocked hread, ?_⟩
  rw [lockedMessage_of_not_boolean _ _ htype]
  generalize stringFieldMessage "block_hash" (observed.field "block_hash") expectedBlockHash = m1
  generalize stringFieldMessage "account" (observed.field "account") expectedAccount = m2
  generalize stringFieldMessage "owner" (observed.field "owner") expectedOwner = m3
  have hne := typeMessage_ne_valueMessage (observed.field "locked").typeOf
  cases m1 <;> cases m2 <;> cases m3 <;>
    simpa [pushIfSome, errorsFor, incorrectData] using hne

theorem validateAssetBlock_locked_not_boolean_witness :
    ∃ errs, validateAssetBlock (exampleBlock "ABC" "x" "x" (.str "false")) "M" "ABC" "x" "x" false
        = .ok errs
      ∧ errorsFor "locked" errs
          = [incorrectData "M" "locked" "expected typeof locked to be 'boolean', got: 'string'"] := by
  obtain ⟨errs, hv, hl, -⟩ :=
    validateAssetBlock_locked_not_boolean (exampleBlock "ABC" "x" "x" (.str "false"))
      "M" "ABC" "x" "x" false rfl (by decide)
  exact ⟨errs, hv, hl⟩

/-- C5: on a block without an `error` property every returned error has type
`incorrect data`, carries the `mintBlockHash` argument and names one of
`block_hash`, `account`, `owner`, `locked`; the errors come in that field
order. The block `{block_hash:'XYZ', account:'x', owner:'y', locked:'true'}`
validated against `'M','ABC','x','x',false` gives three errors: value
mismatches for `block_hash` and `owner`, a type mismatch for `locked`, and
nothing for `account`. -/
theorem validateAssetBlock_errors_shape :
    (∀ (observed : JVal) (mintBlockHash expectedBlockHash expectedAccount expectedOwner : String)
      (expectedLocked : Bool), getProp observed "error" = .ok .undefined →
      ∃ errs, validateAssetBlock observed mintBlockHash expectedBlockHash expectedAccount
          expectedOwner expectedLocked = .ok errs
        ∧ (∀ e ∈ errs, e.type = "incorrect data" ∧ e.mint_block_hash = some mintBlockHash
            ∧ e.field ∈ fieldOrder)
        ∧ (errs.map (fun e => e.field)).Sublist fieldOrder)
    ∧ validateAssetBlock (exampleBlock "XYZ" "x" "y" (.str "true")) "M" "ABC" "x" "x" false
        = .ok [incorrectData "M" "block_hash" "expected block_hash 'ABC', got: 'XYZ'",
               incorrectData "M" "owner" "expected owner 'x', got: 'y'",
               incorrectData "M" "locked"
                 "expected typeof locked to be 'boolean', got: 'string'"] := by
  refine ⟨?_, rfl⟩
  intro observed m eb ea eo el h
  refine ⟨_, validateAssetBlock_fields m eb ea eo el h, ?_⟩
  generalize stringFieldMessage "block_hash" (observed.field "block_hash") eb = m1
  generalize stringFieldMessage "account" (observed.field "account") ea = m2
  generalize stringFieldMessage "owner" (observed.field "owner") eo = m3
  generalize lockedMessage (observed.field "locked") el = m4
  cases m1 <;> cases m2 <;> cases m3 <;> cases m4 <;>
    refine ⟨?_, ?_⟩ <;> simp [pushIfSome, incorrectData, fieldOrder]

theorem validateAssetBlock_errors_shape_witness :
    ∃ errs, validateAssetBlock (exampleBlock "ABC" "y" "x" (.num 1)) "M" "ABC" "x" "x" true
        = .ok errs
      ∧ (errs.map (fun e => e.field)).Sublist fieldOrder := by
  obtain ⟨errs, hv, -, hs⟩ :=
    validateAssetBlock_errors_shape.1 (exampleBlock "ABC" "y" "x" (.num 1))
      "M" "ABC" "x" "x" true rfl
  exact ⟨errs, hv, hs⟩

/-- C6, refuted as stated: with `expectedLocked = true` and every other field
as expected, the string `'true'` in `locked` is rejected: the result is one
error, with field `locked`. -/
theorem validateAssetBlock_rejects_stringified_locked :
    validateAssetBlock (exampleBlock "ABC" "x" "x" (.str "true")) "M" "ABC" "x" "x" true
        = .ok [incorrectData "M" "locked"
            "expected typeof locked to be 'boolean', got: 'string'"]
      ∧ errorsFor "locked" [incorrectData "M" "locked"
            "expected typeof locked to be 'boolean', got: 'string'"] ≠ [] := by
  constructor
  · rfl
  · simp [errorsFor, incorrectData]

/-- C6, amended: on a block without an `error` property the result has no error
with field `locked` exactly when `locked` is the boolean `expectedLocked`
itself; a string in `locked`, `'true'` and `'false'` included, gets the
type-mismatch error for `locked`. -/
theorem validateAssetBlock_locked_accepted_iff (observed : JVal) (mintBlockHash
    expectedBlockHash expectedAccount expectedOwner : String) (expectedLocked : Bool)
    (hread : getProp observed "error" = .ok .undefined) :
    ∃ errs, validateAssetBlock observed mintBlockHash expectedBlockHash expectedAccount
        expectedOwner expectedLocked = .ok errs
      ∧ (errorsFor "locked" errs = [] ↔ observed.field "locked" = .bool expectedLocked)
      ∧ ∀ s : String, observed.field "locked" = .str s →
          errorsFor "locked" errs
            = [incorrectData mintBlockHash "locked"
                "expected typeof locked to be 'boolean', got: 'string'"] := by
  refine ⟨_, validateAssetBlock_fields mintBlockHash expectedBlockHash expectedAccount
    expectedOwner expectedLocked hread, ?_, ?_⟩
  · rw [← lockedMessage_eq_none_iff]
    generalize stringFieldMessage "block_hash" (observed.field "block_hash") expectedBlockHash
      = m1
    generalize stringFieldMessage "account" (observed.field "account") expectedAccount = m2
    generalize stringFieldMessage "owner" (observed.field "owner") expectedOwner = m3
    generalize lockedMessage (observed.field "locked") expectedLocked = m4
    cases m1 <;> cases m2 <;> cases m3 <;> cases m4 <;>
      simp [pushIfSome, errorsFor, incorrectData]
  · intro s hs
    have hm : lockedMessage (observed.field "locked") expectedLocked
        = some "expected typeof locked to be 'boolean', got: 'string'" := by
      rw [hs]
      simp [lockedMessage, JVal.typeOf]
    rw [hm]
    generalize stringFieldMessage "block_hash" (observed.field "block_hash") expectedBlockHash
      = m1
    generalize stringFieldMessage "account" (observed.field "account") expectedAccount = m2
    generalize stringFieldMessage "owner" (observed.field "owner") expectedOwner = m3
    cases m1 <;> cases m2 <;> cases m3 <;>
      simp [pushIfSome, errorsFor, incorrectData]

theorem validateAssetBlock_locked_accepted_iff_witness :
    ∃ errs, validateAssetBlock (exampleBlock "ABC" "x" "x" (.str "false")) "M" "ABC" "x" "x" false
        = .ok errs
      ∧ (errorsFor "locked" errs = []
          ↔ (exampleBlock "ABC" "x" "x" (.str "false")).field "locked" = .bool false) := by
  obtain ⟨errs, hv, hl, -⟩ :=
    validateAssetBlock_locked_accepted_iff (exampleBlock "ABC" "x" "x" (.str "false"))
      "M" "ABC" "x" "x" false rfl
  exact ⟨errs, hv, hl⟩

/-! ## The runner -/

/-- C7: when `caseFn` returns normally with a non-empty error list `L`, the
runner leaves `report[name] = {success: false, errors: L}`, the elements of `L`
in their order. -/
theorem test_records_returned_errors (name : String) (report : Report) (res : Option Sink)
    (fn : Unit → Except Fault (List ValidationError)) (L : List ValidationError)
    (hret : fn () = .ok L) (hne : L ≠ []) :
    getEntry (test name report res fn).1 name = some { success := false, errors := some L } := by
  simp [test, hret, hne, getEntry_setEntry]

theorem test_records_returned_errors_witness :
    getEntry (test "case" [] none
        (fun _ => .ok [incorrectData "M" "owner" "o", incorrectData "M" "locked" "l"])).1 "case"
      = some { success := false,
               errors := some [incorrectData "M" "owner" "o", incorrectData "M" "locked" "l"] } :=
  test_records_returned_errors "case" [] none
    (fun _ => .ok [incorrectData "M" "owner" "o", incorrectData "M" "locked" "l"])
    [incorrectData "M" "owner" "o", incorrectData "M" "locked" "l"] rfl (by simp)

/-- C8: when `caseFn` throws a fault `e`, the runner completes and leaves
`report[name] = {success: false, errors: [x]}` with a single entry `x` of type
`exception` whose message is `e.toString()`. -/
theorem test_records_thrown_fault (name : String) (report : Report) (res : Option Sink)
    (fn : Unit → Except Fault (List ValidationError)) (e : Fault)
    (hthrow : fn () = .error e) :
    ∃ x, getEntry (test name report res fn).1 name
          = some { success := false, errors := some [x] }
      ∧ x.type = "exception" ∧ x.message = .str e.toStr := by
  refine ⟨exceptionError e, ?_, rfl, rfl⟩
  simp [test, hthrow, getEntry_setEntry]

theorem test_records_thrown_fault_witness :
    ∃ x, getEntry (test "case" [] none
          (fun _ => .error { name := "FetchError", message := "socket hang up" })).1 "case"
          = some { success := false, errors := some [x] }
      ∧ x.type = "exception" ∧ x.message = .str "FetchError: socket hang up" :=
  test_records_thrown_fault "case" [] none
    (fun _ => .error { name := "FetchError", message := "socket hang up" })
    { name := "FetchError", message := "socket hang up" } rfl

/-- C9, refuted as stated: when `caseFn` returns the empty list the runner
stores `{ success: true }`, an object without an `errors` property, and not
`{success: true, errors: []}`. -/
theorem test_empty_list_has_no_errors_field :
    getEntry (test "case" [] none (fun _ => .ok [])).1 "case"
        = some { success := true, errors := none }
      ∧ getEntry (test "case" [] none (fun _ => .ok [])).1 "case"
        ≠ some { success := true, errors := some [] } := by
  constructor <;> simp [test, setEntry, getEntry]

/-- C9, amended: on a normal return of `caseFn` with error list `L` the runner
stores `{success: true}`, without an `errors` property, when `L` is empty, and
`{success: false, errors: L}` otherwise; `success` is `L.length === 0` in both
cases. -/
theorem test_records_normal_return (name : String) (report : Report) (res : Option Sink)
    (fn : Unit → Except Fault (List ValidationError)) (L : List ValidationError)
    (hret : fn () = .ok L) :
    getEntry (test name report res fn).1 name
        = some (if L.length = 0 then { success := true, errors := none }
                else { success := false, errors := some L })
      ∧ (getEntry (test name report res fn).1 name).map (fun o => o.success)
        = some (decide (L.length = 0)) := by
  by_cases hl : L = [] <;> simp [test, hret, hl, getEntry_setEntry]

theorem test_records_normal_return_witness :
    getEntry (test "case" [("other", { success := true, errors := none })] (some [])
        (fun _ => .ok [])).1 "case"
      = some { success := true, errors := none } :=
  (test_records_normal_return "case" [("other", { success := true, errors := none })] (some [])
    (fun _ => .ok []) [] rfl).1

/-- C10, the code at the failing input: a `caseFn` that returns one error makes
the runner record `success: false` for the case and write the status line
`success: case` to the sink. -/
theorem test_status_line_disagrees :
    (test "case" [] (some []) (fun _ => .ok [incorrectData "M" "owner" "o"])).2
        = some ["success: case", "<br>"]
      ∧ (getEntry (test "case" [] (some []) (fun _ => .ok [incorrectData "M" "owner" "o"])).1
          "case").map (fun o => o.success) = some false := by
  constructor <;> rfl

/-! ## The suite -/

theorem reportNames_setEntry (report : Report) (name : String) (outcome : Outcome)
    (hnew : name ∉ reportNames report) :
    reportNames (setEntry report name outcome) = reportNames report ++ [name] := by
  induction report with
  | nil => simp [setEntry, reportNames]
  | cons p rest ih =>
    obtain ⟨k, v⟩ := p
    have hk : ¬ k = name := by
      intro h
      exact hnew (by simp [reportNames, h])
    have hrest : name ∉ reportNames rest := by
      intro h
      exact hnew (by simp only [reportNames, List.map_cons, List.mem_cons]; exact Or.inr h)
    have := ih hrest
    simp only [reportNames] at this
    simp [setEntry, reportNames, hk, this]

theorem test_report_eq (name : String) (report : Report) (res : Option Sink)
    (fn : Unit → Except Fault (List ValidationError)) :
    ∃ outcome, (test name report res fn).1 = setEntry report name outcome := by
  unfold test
  cases fn () with
  | error e => exact ⟨_, rfl⟩
  | ok errs =>
    by_cases h : ([] ++ errs : List ValidationError).length = 0
    · exact ⟨{ success := true, errors := none }, by simp only [h, if_true]⟩
    · exact ⟨{ success := false, errors := some ([] ++ errs) }, by simp only [h, if_false]⟩

theorem reportNames_runCases (cases : List Case) (report : Report) (res : Option Sink)
    (out : Report × Option Sink) (hrun : runCases cases report res = some out)
    (hnodup : (reportNames report ++ cases.map (fun c => c.1)).Nodup) :
    reportNames out.1 = reportNames report ++ cases.map (fun c => c.1) := by
  induction cases generalizing report res with
  | nil =>
    simp only [runCases, Option.some.injEq] at hrun
    simp [← hrun]
  | cons c rest ih =>
    obtain ⟨name, fn⟩ := c
    simp only [runCases] at hrun
    cases hfn : fn () with
    | none => simp [hfn] at hrun
    | some result =>
      simp only [hfn] at hrun
      obtain ⟨outcome, hout⟩ := test_report_eq name report res (fun _ => result)
      have hnew : name ∉ reportNames report := by
        intro h
        have := List.nodup_append.1 hnodup
        exact this.2.2 h (by simp)
      have hnames := reportNames_setEntry report name outcome hnew
      rw [ih _ _ hrun]
      · rw [hout, hnames]
        simp
      · rw [hout, hnames]
        simpa using hnodup

theorem runCases_some (cases : List Case) (report : Report) (res : Option Sink)
    (hall : ∀ c ∈ cases, c.2 () ≠ none) : ∃ out, runCases cases report res = some out := by
  induction cases generalizing report res with
  | nil => exact ⟨_, rfl⟩
  | cons c rest ih =>
    obtain ⟨name, fn⟩ := c
    have hfn : fn () ≠ none := hall (name, fn) (by simp)
    cases h : fn () with
    | none => exact absurd h hfn
    | some result =>
      simp only [runCases, h]
      exact ih _ _ (fun c hc => hall c (by simp [hc]))

theorem catalog_names (w : World) (base : String) (response : JVal)
    (errors : List ValidationError) :
    (catalog w base response errors).map (fun c => c.1) = caseNames := by
  rfl

theorem catalog_no_exit (w : World) (base : String) (response : JVal)
    (errors : List ValidationError) (h03 : case03 w base ≠ none) :
    ∀ c ∈ catalog w base response errors, c.2 () ≠ none := by
  intro c hc
  simp only [catalog, caseNames, List.zip_cons_cons, List.zip_nil_right, List.map_cons,
    List.map_nil, List.mem_cons, List.mem_singleton, List.not_mem_nil, or_false] at hc
  rcases hc with rfl | rfl | rfl | rfl | rfl | rfl | rfl | rfl | rfl | rfl | rfl | rfl | rfl | rfl
    | rfl | rfl | rfl | rfl | rfl
  all_goals simp [h03]

theorem caseNames_nodup : caseNames.Nodup := by
  decide

/-- When no fetch of the four-mint case is rejected without a handler, and
whatever else the remote API does, `diagnose` returns a report whose entries
are, in order, the 19 registered case names. -/
theorem diagnose_returns_complete_report (w : World) (baseUrlString : String)
    (res : Option Sink) (hurl : w.parsesAsUrl baseUrlString = true)
    (h03 : case03 w baseUrlString ≠ none) :
    ∃ report sink, diagnose w baseUrlString res = .returned (report, sink)
      ∧ reportNames report = caseNames := by
  obtain ⟨out, hout⟩ := runCases_some
    (catalog w baseUrlString
      (match fetchJson w (requestHistoryUrl baseUrlString) with
        | .ok value => value
        | .error _ => .undefined)
      (match fetchJson w (requestHistoryUrl baseUrlString) with
        | .ok _ => []
        | .error error => [] ++ [exceptionError error])) [] res
    (catalog_no_exit w baseUrlString _ _ h03)
  refine ⟨out.1, out.2, ?_, ?_⟩
  · simp only [diagnose, hurl, if_true, hout]
  · rw [reportNames_runCases _ _ _ _ hout]
    · simp [reportNames, catalog_names]
    · simpa [reportNames, catalog_names] using caseNames_nodup

/-- C11, the code at the failing inputs: `diagnose` returns no report, because
the process is ended by an unhandled rejection in the four-mint case, (1) when
every request faults, the second, third and fourth fetch of that case being
rejected without ever being awaited, and (2) when every request is answered as
expected except the second fetch of that case, which faults while the first is
still pending. -/
theorem diagnose_exits_on_unhandled_rejection :
    diagnose downWorld "http://localhost:1919" none = .exited
      ∧ diagnose earlyFaultWorld "http://localhost:1919" none = .exited := by
  constructor <;> rfl

/-- C12, the code at the failing input: the setup fetch faults and every other
request is answered with the block its case expects. Three cases are recorded
as failed, not two: the first case returns the `errors` array of `diagnose`,
which holds the exception entry of the setup, so its entry is
`{success: false, errors: [that entry]}`. -/
theorem diagnose_setup_fault_fails_first_case :
    successFlags (diagnose (expectedWorld (.error socketFault)) "http://localhost:1919" none)
        = [false, true, true, true, true, true, true, true, true, true, true, false, true, false,
           true, true, true, true, true]
      ∧ entryOf (diagnose (expectedWorld (.error socketFault)) "http://localhost:1919" none)
          "confirms change#mint > send#asset > receive#asset"
        = some { success := false, errors := some [exceptionError socketFault] } := by
  constructor
  · decide
  · rfl

/-- C13, the code at the failing input: the `get_asset_chain` request is
answered with `{error: 'boom'}`. The two cases that read the shared response
record one `exception` entry, the `TypeError` of reading `length` of the
absent `asset_chain`, and no `rpc error`. -/
theorem diagnose_shared_cases_skip_error_check :
    entryOf (diagnose (expectedWorld (.ok (.ok (.obj [("error", .str "boom")]))))
          "http://localhost:1919" none)
          "ignores invalid send#atomic_swap where encoded receive height is less than 2"
        = some { success := false,
                 errors := some [exceptionError (propertyTypeError .undefined "length")] }
      ∧ entryOf (diagnose (expectedWorld (.ok (.ok (.obj [("error", .str "boom")]))))
          "http://localhost:1919" none)
          "cancels atomic swap if paying account balance is less than min raw in block at: receive height - 1"
        = some { success := false,
                 errors := some [exceptionError (propertyTypeError .undefined "length")] } := by
  constructor <;> rfl

theorem frontierCase_fault (w : World) (request : Request) (m eb ea eo : String) (el : Bool)
    (e : Fault) (h : fetchJson w request = .error e) :
    frontierCase w request m eb ea eo el = [exceptionError e] := by
  simp [frontierCase, h, bind, Except.bind]

theorem fetchJson_of_fetch {w : World} {request : Request} {block : JVal}
    (h : w.fetch request = .ok (.ok block)) : fetchJson w request = .ok block := by
  simp [fetchJson, h, bind, Except.bind]

/-- C14, refuted as stated: the first request of the four-mint case is answered
with the JSON value `null` and the other three with `{}`. The case returns one
exception entry, although validating the second response alone gives four
errors. -/
theorem case03_null_response_not_concatenated :
    case03 nullFirstWorld "http://localhost:1919"
        = some [exceptionError (propertyTypeError .null "error")]
      ∧ (case03Validate2 (.obj [])).toOption.map List.length = some 4 := by
  constructor <;> rfl

/-- C14, amended: when every request of a multi-request case is answered with a
JSON value other than `null`, the error list of the case is the concatenation,
in request order, of `validateAssetBlock` applied to each response with the
mint block hash and expected state of its sub-request: four lists for the
four-mint case, two for the two-mint case. -/
theorem multi_request_cases_concatenate (w : World) (base : String) :
    (∀ b1 b2 b3 b5 : JVal,
      w.fetch (case03Request1 base) = .ok (.ok b1) → w.fetch (case03Request2 base) = .ok (.ok b2) →
      w.fetch (case03Request3 base) = .ok (.ok b3) → w.fetch (case03Request5 base) = .ok (.ok b5) →
      (b1 ≠ .null ∧ b1 ≠ .undefined) → (b2 ≠ .null ∧ b2 ≠ .undefined) →
      (b3 ≠ .null ∧ b3 ≠ .undefined) → (b5 ≠ .null ∧ b5 ≠ .undefined) →
      ∃ e1 e2 e3 e5, case03Validate1 b1 = .ok e1 ∧ case03Validate2 b2 = .ok e2
        ∧ case03Validate3 b3 = .ok e3 ∧ case03Validate5 b5 = .ok e5
        ∧ case03 w base = some (e1 ++ e2 ++ e3 ++ e5))
    ∧ (∀ b1 b2 : JVal,
      w.fetch (case13Request1 base) = .ok (.ok b1) → w.fetch (case13Request2 base) = .ok (.ok b2) →
      (b1 ≠ .null ∧ b1 ≠ .undefined) → (b2 ≠ .null ∧ b2 ≠ .undefined) →
      ∃ e1 e2, case13Validate1 b1 = .ok e1 ∧ case13Validate2 b2 = .ok e2
        ∧ case13 w base = e1 ++ e2) := by
  constructor
  · intro b1 b2 b3 b5 h1 h2 h3 h5 r1 r2 r3 r5
    obtain ⟨e1, he1⟩ : ∃ e, case03Validate1 b1 = .ok e :=
      validateAssetBlock_of_readable _ _ _ _ _ r1.1 r1.2
    obtain ⟨e2, he2⟩ : ∃ e, case03Validate2 b2 = .ok e :=
      validateAssetBlock_of_readable _ _ _ _ _ r2.1 r2.2
    obtain ⟨e3, he3⟩ : ∃ e, case03Validate3 b3 = .ok e :=
      validateAssetBlock_of_readable _ _ _ _ _ r3.1 r3.2
    obtain ⟨e5, he5⟩ : ∃ e, case03Validate5 b5 = .ok e :=
      validateAssetBlock_of_readable _ _ _ _ _ r5.1 r5.2
    refine ⟨e1, e2, e3, e5, he1, he2, he3, he5, ?_⟩
    simp [case03, case03Try, case03Promises, h1, h2, h3, h5, he1, he2, he3, he5,
      unhandledRejection, bind, Except.bind, pure, Except.pure]
  · intro b1 b2 h1 h2 r1 r2
    obtain ⟨e1, he1⟩ : ∃ e, case13Validate1 b1 = .ok e :=
      validateAssetBlock_of_readable _ _ _ _ _ r1.1 r1.2
    obtain ⟨e2, he2⟩ : ∃ e, case13Validate2 b2 = .ok e :=
      validateAssetBlock_of_readable _ _ _ _ _ r2.1 r2.2
    refine ⟨e1, e2, he1, he2, ?_⟩
    simp [case13, case13Block, fetchJson_of_fetch h1, fetchJson_of_fetch h2, he1, he2, bind,
      Except.bind]

theorem multi_request_cases_concatenate_witness :
    ∃ e1 e2, case13Validate1 (.obj []) = .ok e1 ∧ case13Validate2 (.obj []) = .ok e2
      ∧ case13 nullFirstWorld "http://localhost:1919" = e1 ++ e2 := by
  obtain ⟨e1, e2, h1, h2, h⟩ :=
    (multi_request_cases_concatenate nullFirstWorld "http://localhost:1919").2 (.obj []) (.obj [])
      rfl rfl ⟨by simp, by simp⟩ ⟨by simp, by simp⟩
  exact ⟨e1, e2, h1, h2, h⟩

theorem case03Try_fault (p1 p2 p3 p5 : Except Fault Response)
    (h : (∃ e, (p1 >>= id) = .error e) ∨ (∃ e, (p2 >>= id) = .error e)
      ∨ (∃ e, (p3 >>= id) = .error e) ∨ (∃ e, (p5 >>= id) = .error e)) :
    ∃ e, case03Try p1 p2 p3 p5 = [exceptionError e] := by
  rcases p1 with e1 | r1 <;> rcases p2 with e2 | r2 <;> rcases p3 with e3 | r3 <;>
    rcases p5 with e5 | r5
  all_goals first
    | exact ⟨_, rfl⟩
    | (rcases r1 with e1 | b1 <;> rcases r2 with e2 | b2 <;> rcases r3 with e3 | b3 <;>
        rcases r5 with e5 | b5
       all_goals first
         | exact ⟨_, rfl⟩
         | (exfalso; simp [bind, Except.bind] at h))

/-- C15, refuted as stated: when both requests of the two-mint case fault, the
case returns two exception entries, one per `try` block. -/
theorem case13_two_faults_two_entries :
    case13 downWorld "http://localhost:1919"
      = [exceptionError socketFault, exceptionError socketFault] := by
  rfl

/-- C15, amended: in every single-request case other than the first, a fault
while fetching or parsing the response gives the one-element list holding the
exception entry, and so does the first case when the setup fetch left the
shared list empty; in the four-mint case, when a request faults and no fetch
promise is rejected without a handler, the case returns a one-element list
holding an exception entry; in the two-mint case each request is guarded on
its own, so a faulting request contributes one exception entry in its place
and what the other request contributes is kept. -/
theorem fault_gives_exception_entry (w : World) (base : String) :
    (∀ c ∈ singleRequestCases w base, ∀ e, fetchJson w c.1 = .error e → c.2 = [exceptionError e])
    ∧ (∀ e, fetchJson w (case01Request base) = .error e →
        case01 w base [] = [exceptionError e])
    ∧ ((∃ e, fetchJson w (case03Request1 base) = .error e)
        ∨ (∃ e, fetchJson w (case03Request2 base) = .error e)
        ∨ (∃ e, fetchJson w (case03Request3 base) = .error e)
        ∨ (∃ e, fetchJson w (case03Request5 base) = .error e) →
        unhandledRejection 0 (case03Promises w base) = false →
        ∃ e, case03 w base = some [exceptionError e])
    ∧ (∀ e, fetchJson w (case13Request1 base) = .error e →
        case13 w base
          = [exceptionError e] ++ case13Block w (case13Request2 base) case13Validate2)
    ∧ (∀ e, fetchJson w (case13Request2 base) = .error e →
        case13 w base
          = case13Block w (case13Request1 base) case13Validate1 ++ [exceptionError e]) := by
  refine ⟨?_, ?_, ?_, ?_, ?_⟩
  · intro c hc e he
    simp only [singleRequestCases, List.mem_cons, List.mem_singleton, List.not_mem_nil,
      or_false] at hc
    rcases hc with rfl | rfl | rfl | rfl | rfl | rfl | rfl | rfl | rfl | rfl | rfl | rfl | rfl | rfl
    all_goals exact frontierCase_fault _ _ _ _ _ _ _ e he
  · intro e he
    simp [case01, he, bind, Except.bind]
  · intro hfault hhandled
    obtain ⟨e, he⟩ := case03Try_fault (w.fetch (case03Request1 base))
      (w.fetch (case03Request2 base)) (w.fetch (case03Request3 base))
      (w.fetch (case03Request5 base)) hfault
    exact ⟨e, by simp only [case03, hhandled, Bool.false_eq_true, if_false, he]⟩
  · intro e he
    simp [case13, case13Block, he, bind, Except.bind]
  · intro e he
    simp [case13, case13Block, he, bind, Except.bind]

theorem fault_gives_exception_entry_witness :
    ∃ e, case03 badBodyWorld "http://localhost:1919" = some [exceptionError e] :=
  (fault_gives_exception_entry badBodyWorld "http://localhost:1919").2.2.1
    (Or.inl ⟨_, rfl⟩) rfl

theorem toStr_num_natCast (n : Nat) : (JVal.num (n : Int)).toStr = toString n := by
  simp [JVal.toStr]
  rfl

/-- C16: on a shared response whose `asset_chain` is a sequence of length `n`,
the chain-length case returns `[]` exactly when `n = 3`; for any other `n` it
returns one error of type `incorrect data`, field `asset_chain.length`, the
setup mint block hash 439F5CB5...84A56A, and a message that reports `n`. -/
theorem case12_chain_length (response : JVal) (items : List JVal)
    (hchain : getProp response "asset_chain" = .ok (.arr items)) :
    (case12 response = [] ↔ items.length = 3)
      ∧ (items.length ≠ 3 →
          case12 response
            = [{ type := "incorrect data", field := some "asset_chain.length",
                 mint_block_hash :=
                   some "439F5CB566E957576C2473B7AF6F3D7D17FBF5022685EB70ED825EAC3B84A56A",
                 message := .str
                   ("Expected NFT with mint block hash: "
                     ++ "439F5CB566E957576C2473B7AF6F3D7D17FBF5022685EB70ED825EAC3B84A56A"
                     ++ " to have an asset chain length of 3, got: " ++ toString items.length
                     ++ ". Atomic swap blocks with receive height set to less than two should be ignored.") }]) := by
  have hcast : ((items.length : Int) = 3) ↔ items.length = 3 := by
    constructor <;> intro h <;> omega
  by_cases h3 : items.length = 3
  · have h3i : (items.length : Int) = 3 := hcast.2 h3
    simp [case12, hchain, getLength, JVal.strictEq, h3, h3i, bind, Except.bind, pure, Except.pure]
  · have h3i : ¬ (items.length : Int) = 3 := fun h => h3 (hcast.1 h)
    have hs := toStr_num_natCast items.length
    simp [case12, hchain, getLength, JVal.strictEq, h3, h3i, hs, chainLengthError,
      requestAssetChainMintBlockHash, bind, Except.bind, pure, Except.pure]

theorem case12_chain_length_witness :
    case12 (.obj [("asset_chain", .arr [.obj [], .obj []])])
      = [{ type := "incorrect data", field := some "asset_chain.length",
           mint_block_hash :=
             some "439F5CB566E957576C2473B7AF6F3D7D17FBF5022685EB70ED825EAC3B84A56A",
           message := .str
             ("Expected NFT with mint block hash: "
               ++ "439F5CB566E957576C2473B7AF6F3D7D17FBF5022685EB70ED825EAC3B84A56A"
               ++ " to have an asset chain length of 3, got: " ++ toString 2
               ++ ". Atomic swap blocks with receive height set to less than two should be ignored.") }] :=
  (case12_chain_length (.obj [("asset_chain", .arr [.obj [], .obj []])]) [.obj [], .obj []]
    rfl).2 (by decide)

/-- C17, the code at the failing input: the request body carries the address
`http://nft.example`, where the API answers every request as the cases expect,
while the API at any other address, `http://localhost:1919` included, answers
every request with `{error: 'unknown asset'}`. Run on the submitted address,
`diagnose` passes all 19 cases; the handler writes that address to the page
and then runs `diagnose` on the literal `http://localhost:1919`, so its report
fails all 19 cases. -/
theorem postHandler_ignores_body_url :
    successFlags (diagnose (twoSiteWorld "http://nft.example") "http://nft.example" none)
        = List.replicate 19 true
      ∧ handlerFlags (postHandler (twoSiteWorld "http://nft.example") (fun _ => "") ""
          "http://nft.example") = List.replicate 19 false
      ∧ handlerPreamble (postHandler (twoSiteWorld "http://nft.example") (fun _ => "") ""
          "http://nft.example")
        = ["", "<br><hr><br>", "Please wait. Inspecting NFT API at: ",
            "http://nft.example", "<br><br>"] := by
  refine ⟨?_, ?_, ?_⟩ <;> decide

end NftDoctor
